import Mathlib

/-!
Verification of the order/checkout subsystem of the mundo-auto backend.

The Python source (src/app/crud/order.py, src/app/crud/shop_product.py,
src/app/api/endpoints/orders.py, src/app/api/endpoints/shop_orders.py) is
shallowly embedded here: the relational tables become lists of records, the
ORM session becomes an explicit `DB` value threaded through the operations,
and SQL floats become rationals.  Row identifiers (UUIDs in the source) are
modelled as naturals; fresh ids are drawn from a counter `next_id` carried by
the database state, and the externally generated order numbers (timestamp
plus random suffix in the source) are supplied by a parameter `gen`.
-/

namespace MundoAuto

/-- Order status enum (src/app/models/order.py, OrderStatus). -/
inductive OrderStatus where
  | pending
  | processing
  | shipped
  | delivered
  | cancelled
  | returned
deriving DecidableEq, Repr

/-- Payment method enum (src/app/models/order.py, PaymentMethod). -/
inductive PaymentMethod where
  | credit_card
  | bank_transfer
  | reference
  | multicaixa
deriving DecidableEq, Repr

/-- Payment status enum (src/app/models/order.py, PaymentStatus). -/
inductive PaymentStatus where
  | pending
  | paid
  | failed
  | refunded
deriving DecidableEq, Repr

/-- String value of an order status, as the Python str-enum renders in
f-strings (src/app/models/order.py). -/
def statusStr : OrderStatus → String
  | .pending => "pending"
  | .processing => "processing"
  | .shipped => "shipped"
  | .delivered => "delivered"
  | .cancelled => "cancelled"
  | .returned => "returned"

/-- String value of a payment status (src/app/models/order.py). -/
def paymentStr : PaymentStatus → String
  | .pending => "pending"
  | .paid => "paid"
  | .failed => "failed"
  | .refunded => "refunded"

/-- Row of the shops table; only the columns the checkout flow reads
(src/app/models/shop.py). -/
structure Shop where
  id : Nat
  name : String
deriving DecidableEq, Repr

/-- Row of the shop_products table; only the columns the checkout flow reads
(src/app/models/shop_product.py). -/
structure ShopProduct where
  id : Nat
  shop_id : Nat
  name : String
  price : Rat
  sale_price : Option Rat
  stock_quantity : Int
deriving DecidableEq, Repr

/-- Row of the cart_items table (src/app/models/cart.py). -/
structure CartItem where
  id : Nat
  user_id : Nat
  shop_product_id : Nat
  quantity : Int
deriving DecidableEq, Repr

/-- Row of the orders table (src/app/models/order.py, Order). -/
structure Order where
  id : Nat
  user_id : Nat
  order_number : String
  status : OrderStatus
  total_amount : Rat
  shipping_address : String
  billing_address : String
  payment_method : PaymentMethod
  payment_status : PaymentStatus
  tracking_number : Option String
  shipping_company : Option String
  notes : Option String
deriving DecidableEq, Repr

/-- Row of the order_items table (src/app/models/order.py, OrderItem). -/
structure OrderItem where
  order_id : Nat
  shop_product_id : Nat
  quantity : Int
  price : Rat
  product_name : String
  shop_name : String
deriving DecidableEq, Repr

/-- Row of the order_status_updates table
(src/app/models/order.py, OrderStatusUpdate). -/
structure StatusUpdateRow where
  order_id : Nat
  status : OrderStatus
  comment : Option String
deriving DecidableEq, Repr

/-- User as the order endpoints see it: id, superuser flag, role and the
logist's shop (src/app/models/user.py together with the role/shop attributes
read by src/app/api/endpoints/shop_orders.py and src/app/schemas/user.py,
UserRole). -/
inductive UserRole where
  | customer
  | logist
  | admin
  | superadmin
deriving DecidableEq, Repr

structure User where
  id : Nat
  is_superuser : Bool
  role : UserRole
  shop_id : Option Nat
deriving DecidableEq, Repr

/-- The database state: one list per relational table, plus a counter
supplying fresh primary keys (uuid4 defaults in the source). -/
structure DB where
  shops : List Shop
  shop_products : List ShopProduct
  cart_items : List CartItem
  orders : List Order
  order_items : List OrderItem
  status_updates : List StatusUpdateRow
  next_id : Nat
deriving Repr

/-- Lookup of a shop product by primary key in a product list
(src/app/crud/shop_product.py, get_shop_product). -/
def findProductIn (ps : List ShopProduct) (pid : Nat) : Option ShopProduct :=
  ps.find? (fun p => p.id == pid)

/-- Lookup of a shop product by primary key in the database. -/
def findShopProduct (db : DB) (pid : Nat) : Option ShopProduct :=
  findProductIn db.shop_products pid

/-- Lookup of a shop by primary key (the `shop` ORM relationship). -/
def findShop (db : DB) (sid : Nat) : Option Shop :=
  db.shops.find? (fun s => s.id == sid)

/-- Name of the shop owning a listing (`shop_product.shop.name`).  The foreign
key is NOT NULL in the schema, so the missing-shop branch is unreachable on a
wellformed database. -/
def shopNameOf (db : DB) (sid : Nat) : String :=
  match findShop db sid with
  | some s => s.name
  | none => ""

/-- The user's cart rows (`db.query(CartItem).filter(CartItem.user_id == user_id)`). -/
def userCartItems (db : DB) (uid : Nat) : List CartItem :=
  db.cart_items.filter (fun ci => ci.user_id == uid)

/-- Effective unit price of a listing as the source computes it:
`shop_product.sale_price if shop_product.sale_price else shop_product.price`
(src/app/crud/order.py, lines 58 and 88).  Python truthiness makes a sale
price of 0 fall back to `price`, exactly like a missing one. -/
def effectivePrice (p : ShopProduct) : Rat :=
  match p.sale_price with
  | some sp => if sp = 0 then p.price else sp
  | none => p.price

/-- Effective unit price as the spec words it: the sale price whenever it is
present and non-null, and the price otherwise.  Kept separate from
`effectivePrice` to compare the two readings. -/
def specEffectivePrice (p : ShopProduct) : Rat :=
  match p.sale_price with
  | some sp => sp
  | none => p.price

/-- Insert a cart item into the per-shop grouping under key `sid`, preserving
dict insertion order (a new shop key goes to the back, an item joins the back
of its shop's list). -/
def insertByShop (acc : List (Nat × List CartItem)) (sid : Nat) (ci : CartItem) :
    List (Nat × List CartItem) :=
  match acc with
  | [] => [(sid, [ci])]
  | (s, l) :: rest =>
    if s = sid then (s, l ++ [ci]) :: rest
    else (s, l) :: insertByShop rest sid ci

/-- Loop of src/app/crud/order.py lines 40-47: walk the cart items, skip the
ones whose listing no longer resolves, and group the rest by the owning
shop's id. -/
def groupCartByShopAux (db : DB) :
    List CartItem → List (Nat × List CartItem) → List (Nat × List CartItem)
  | [], acc => acc
  | ci :: rest, acc =>
    match findShopProduct db ci.shop_product_id with
    | none => groupCartByShopAux db rest acc
    | some sp => groupCartByShopAux db rest (insertByShop acc sp.shop_id ci)

def groupCartByShop (db : DB) (items : List CartItem) : List (Nat × List CartItem) :=
  groupCartByShopAux db items []

/-- Total accumulation loop of src/app/crud/order.py lines 54-59: running
total over the group's items, adding effective price times quantity for each
item whose listing resolves. -/
def groupTotalAux (ps : List ShopProduct) : List CartItem → Rat → Rat
  | [], t => t
  | ci :: rest, t =>
    match findProductIn ps ci.shop_product_id with
    | none => groupTotalAux ps rest t
    | some sp => groupTotalAux ps rest (t + effectivePrice sp * (ci.quantity : Rat))

def groupTotal (ps : List ShopProduct) (items : List CartItem) : Rat :=
  groupTotalAux ps items 0

/-- Stock decrement of src/app/crud/order.py line 100:
`shop_product.stock_quantity = max(0, shop_product.stock_quantity - cart_item.quantity)`
applied to the row with the given primary key. -/
def updateStockList (ps : List ShopProduct) (pid : Nat) (qty : Int) : List ShopProduct :=
  ps.map (fun p =>
    if p.id = pid then { p with stock_quantity := max 0 (p.stock_quantity - qty) } else p)

/-- Item loop of src/app/crud/order.py lines 84-103: for each cart item of the
group whose listing resolves, snapshot an OrderItem (quantity, effective
price, product and shop names) and decrement the listing's stock, clamped at
zero.  Returns the mutated product table and the created order items in
order. -/
def processGroupItems (db0 : DB) (order_id : Nat) :
    List ShopProduct → List CartItem → List ShopProduct × List OrderItem
  | ps, [] => (ps, [])
  | ps, cart_item :: rest =>
    match findProductIn ps cart_item.shop_product_id with
    | none => processGroupItems db0 order_id ps rest
    | some shop_product =>
      let order_item : OrderItem :=
        { order_id := order_id
          shop_product_id := shop_product.id
          quantity := cart_item.quantity
          price := effectivePrice shop_product
          product_name := shop_product.name
          shop_name := shopNameOf db0 shop_product.shop_id }
      let ps' := updateStockList ps shop_product.id cart_item.quantity
      let r := processGroupItems db0 order_id ps' rest
      (r.1, order_item :: r.2)

/-- Result of processing one shop group. -/
structure GroupResult where
  products : List ShopProduct
  order : Order
  items : List OrderItem
  statusRow : StatusUpdateRow
deriving Repr

/-- Body of the per-shop loop of src/app/crud/order.py lines 52-116: compute
the group's total, build the Order row (status pending, payment pending,
generated order number), create its order items while decrementing stock, and
record the initial pending status update. -/
def processGroup (db0 : DB) (ps : List ShopProduct) (user_id : Nat)
    (shipping_address billing_address : String) (payment_method : PaymentMethod)
    (notes : Option String) (gen : Nat → String) (order_id : Nat)
    (shop_cart_items : List CartItem) : GroupResult :=
  let total_amount := groupTotal ps shop_cart_items
  let shop_name :=
    match shop_cart_items.head? with
    | none => "Unknown Shop"
    | some ci =>
      match findProductIn ps ci.shop_product_id with
      | none => "Unknown Shop"
      | some sp => shopNameOf db0 sp.shop_id
  let order_notes :=
    match notes with
    | none => "Order from " ++ shop_name
    | some n =>
      if n = "" then "Order from " ++ shop_name
      else "Order from " ++ shop_name ++ ". Customer notes: " ++ n
  let new_order : Order :=
    { id := order_id
      user_id := user_id
      order_number := gen order_id
      status := OrderStatus.pending
      total_amount := total_amount
      shipping_address := shipping_address
      billing_address := billing_address
      payment_method := payment_method
      payment_status := PaymentStatus.pending
      tracking_number := none
      shipping_company := none
      notes := some order_notes }
  let r := processGroupItems db0 order_id ps shop_cart_items
  let status_update : StatusUpdateRow :=
    { order_id := order_id
      status := OrderStatus.pending
      comment := some ("Order created for shop: " ++ shop_name) }
  ⟨r.1, new_order, r.2, status_update⟩

/-- Result of processing all shop groups. -/
structure GroupsResult where
  products : List ShopProduct
  bundles : List (Order × List OrderItem)
  updates : List StatusUpdateRow
  nid : Nat
deriving Repr

/-- Per-shop loop of src/app/crud/order.py lines 52-116, iterated over the
groups in insertion order.  Each group receives the next fresh order id. -/
def processGroups (db0 : DB) (user_id : Nat)
    (shipping_address billing_address : String) (payment_method : PaymentMethod)
    (notes : Option String) (gen : Nat → String) :
    List ShopProduct → Nat → List (Nat × List CartItem) → GroupsResult
  | ps, nid, [] => ⟨ps, [], [], nid⟩
  | ps, nid, (_, shop_cart_items) :: rest =>
    let g := processGroup db0 ps user_id shipping_address billing_address
      payment_method notes gen nid shop_cart_items
    let r := processGroups db0 user_id shipping_address billing_address
      payment_method notes gen g.products (nid + 1) rest
    ⟨r.products, (g.order, g.items) :: r.bundles, g.statusRow :: r.updates, r.nid⟩

/-- Checkout (src/app/crud/order.py, create_order_from_cart): read the user's
cart, fail on an empty cart, group items by owning shop, create one order per
group, decrement inventory, record the initial status updates, delete all of
the user's cart rows and commit everything at once.  Order numbers come from
the external generator `gen` applied to the fresh order id (timestamp plus
random suffix in the source).  On success returns the committed database and
the created orders, each paired with its order items (the returned ORM
objects carry their `items` relationship). -/
def create_order_from_cart (db : DB) (user_id : Nat)
    (shipping_address billing_address : String) (payment_method : PaymentMethod)
    (notes : Option String) (gen : Nat → String) :
    Except String (DB × List (Order × List OrderItem)) :=
  let cart_items := userCartItems db user_id
  if cart_items.isEmpty then
    Except.error "Cart is empty"
  else
    let items_by_shop := groupCartByShop db cart_items
    let r := processGroups db user_id shipping_address billing_address
      payment_method notes gen db.shop_products db.next_id items_by_shop
    Except.ok
      ({ db with
          shop_products := r.products
          orders := db.orders ++ r.bundles.map Prod.fst
          order_items := db.order_items ++ (r.bundles.map Prod.snd).flatten
          status_updates := db.status_updates ++ r.updates
          cart_items := db.cart_items.filter (fun ci => ci.user_id != user_id)
          next_id := r.nid },
        r.bundles)

/-- HTTP-style result of an endpoint: a payload or an error status with
detail string. -/
inductive ApiResult (α : Type) where
  | ok : α → ApiResult α
  | httpError : Nat → String → ApiResult α
deriving DecidableEq, Repr

def ApiResult.isOk {α : Type} : ApiResult α → Bool
  | .ok _ => true
  | .httpError _ _ => false

/-- Endpoint POST /api/v1/orders (src/app/api/endpoints/orders.py,
create_order): run the checkout and turn a ValueError into a 400 response,
leaving the database untouched in that case. -/
def create_order (db : DB) (user_id : Nat)
    (shipping_address billing_address : String) (payment_method : PaymentMethod)
    (notes : Option String) (gen : Nat → String) :
    DB × ApiResult (List (Order × List OrderItem)) :=
  match create_order_from_cart db user_id shipping_address billing_address
      payment_method notes gen with
  | .ok (db', bundles) => (db', .ok bundles)
  | .error e => (db, .httpError 400 e)

/-- Lookup of an order by id, optionally restricted to an owner
(src/app/crud/order.py, get_order).  The Python applies the user filter
whenever the argument is truthy. -/
def get_order (db : DB) (order_id : Nat) (user_id : Option Nat) : Option Order :=
  db.orders.find? (fun o =>
    o.id == order_id &&
      (match user_id with
       | some u => o.user_id == u
       | none => true))

/-- Lookup of an order by order number, optionally restricted to an owner
(src/app/crud/order.py, get_order_by_number). -/
def get_order_by_number (db : DB) (number : String) (user_id : Option Nat) : Option Order :=
  db.orders.find? (fun o =>
    o.order_number == number &&
      (match user_id with
       | some u => o.user_id == u
       | none => true))

/-- Persist a mutated order row (the session add/commit of the update
helpers): replace the row with the same primary key. -/
def setOrder (db : DB) (o : Order) : DB :=
  { db with orders := db.orders.map (fun q => if q.id = o.id then o else q) }

/-- Status change (src/app/crud/order.py, update_order_status): set the
order's status column and append one audit row carrying the new status and
the comment, in the same commit. -/
def update_order_status (db : DB) (order_id : Nat) (status : OrderStatus)
    (comment : Option String) : Except String (DB × Order) :=
  match get_order db order_id none with
  | none => Except.error "Order not found"
  | some o =>
    let o' := { o with status := status }
    let row : StatusUpdateRow := { order_id := o.id, status := status, comment := comment }
    Except.ok (setOrder { db with status_updates := db.status_updates ++ [row] } o', o')

/-- Payment status change (src/app/crud/order.py, update_payment_status): set
the payment_status column and append one audit row carrying the order's
(unchanged) status and a generated comment. -/
def update_payment_status (db : DB) (order_id : Nat) (payment_status : PaymentStatus) :
    Except String (DB × Order) :=
  match get_order db order_id none with
  | none => Except.error "Order not found"
  | some o =>
    let o' := { o with payment_status := payment_status }
    let comment := "Payment status updated to " ++ paymentStr payment_status
    let row : StatusUpdateRow := { order_id := o.id, status := o.status, comment := some comment }
    Except.ok (setOrder { db with status_updates := db.status_updates ++ [row] } o', o')

/-- Shipping info update (src/app/crud/order.py, update_shipping_info): set
the tracking fields; when the order is still pending or processing, also
advance it to shipped and append one audit row. -/
def update_shipping_info (db : DB) (order_id : Nat) (tracking_number : String)
    (shipping_company : String) : Except String (DB × Order) :=
  match get_order db order_id none with
  | none => Except.error "Order not found"
  | some o =>
    let o1 := { o with
      tracking_number := some tracking_number
      shipping_company := some shipping_company }
    if o1.status = OrderStatus.pending ∨ o1.status = OrderStatus.processing then
      let o2 := { o1 with status := OrderStatus.shipped }
      let row : StatusUpdateRow :=
        { order_id := o.id
          status := OrderStatus.shipped
          comment := some ("Order shipped via " ++ shipping_company ++
            ", tracking: " ++ tracking_number) }
      Except.ok (setOrder { db with status_updates := db.status_updates ++ [row] } o2, o2)
    else
      Except.ok (setOrder db o1, o1)

/-- Stock adjustment (src/app/crud/shop_product.py, update_stock): add the
signed delta to the listing's stock, clamp a negative result to zero, and
return the updated listing; None when no listing has that id. -/
def update_stock (db : DB) (shop_product_id : Nat) (quantity_change : Int) :
    Option (DB × ShopProduct) :=
  match findShopProduct db shop_product_id with
  | none => none
  | some p =>
    let s := p.stock_quantity + quantity_change
    let p' := { p with stock_quantity := if s < 0 then 0 else s }
    some
      ({ db with shop_products := db.shop_products.map (fun q =>
          if q.id = shop_product_id then
            let s' := q.stock_quantity + quantity_change
            { q with stock_quantity := if s' < 0 then 0 else s' }
          else q) },
        p')

/-- Valid status transition table
(src/app/api/endpoints/shop_orders.py, lines 220-227). -/
def valid_transitions : OrderStatus → List OrderStatus
  | .pending => [.processing, .cancelled]
  | .processing => [.shipped, .cancelled]
  | .shipped => [.delivered, .returned]
  | .delivered => [.returned]
  | .cancelled => []
  | .returned => []

/-- Shop access check (src/app/api/endpoints/shop_orders.py,
check_shop_access): superadmin and admin see every shop, a logist only the
assigned shop, everyone else nothing. -/
def check_shop_access (u : User) (shop_id : Nat) : Bool :=
  match u.role with
  | .superadmin => true
  | .logist => u.shop_id == some shop_id
  | .admin => true
  | .customer => false

/-- Does the order contain at least one item whose listing belongs to the
shop (the has_shop_items check repeated in src/app/api/endpoints/shop_orders.py)? -/
def order_has_shop_items (db : DB) (o : Order) (shop_id : Nat) : Bool :=
  (db.order_items.filter (fun oi => oi.order_id == o.id)).any (fun oi =>
    match findShopProduct db oi.shop_product_id with
    | some sp => sp.shop_id == shop_id
    | none => false)

/-- Endpoint PUT /api/v1/shops/{shop_id}/orders/{order_id}/status
(src/app/api/endpoints/shop_orders.py, update_shop_order_status): access
check, order lookup, shop-membership check, then the transition-table check;
an invalid transition yields a 400 naming the source/target pair and changes
nothing; a valid one delegates to update_order_status. -/
def update_shop_order_status (db : DB) (u : User) (shop_id order_id : Nat)
    (new_status : OrderStatus) (comment : Option String) : DB × ApiResult Order :=
  if ¬ check_shop_access u shop_id then
    (db, .httpError 403 "Not authorized to update this shop's orders")
  else
    match get_order db order_id none with
    | none => (db, .httpError 404 "Order not found")
    | some o =>
      if ¬ order_has_shop_items db o shop_id then
        (db, .httpError 404 "Order not found in this shop")
      else if new_status ∉ valid_transitions o.status then
        (db, .httpError 400 ("Invalid status transition from " ++ statusStr o.status ++
          " to " ++ statusStr new_status))
      else
        match update_order_status db order_id new_status comment with
        | .ok (db', o') => (db', .ok o')
        | .error e => (db, .httpError 500 e)

/-- Body of PUT /api/v1/orders/{order_id}
(src/app/api/endpoints/orders.py, OrderUpdate schema with exclude_unset:
an absent field is `none`). -/
structure OrderUpdate where
  status : Option OrderStatus := none
  payment_status : Option PaymentStatus := none
  tracking_number : Option String := none
  shipping_company : Option String := none
  notes : Option String := none
deriving Repr

/-- Endpoint PUT /api/v1/orders/{order_id} (src/app/api/endpoints/orders.py,
update_order, admin only): applies in turn the requested status (with NO
transition-table check), payment status, and shipping info.  An unexpected
ValueError from a helper would surface as a 500. -/
def update_order (db : DB) (u : User) (order_id : Nat) (upd : OrderUpdate) :
    DB × ApiResult Order :=
  if ¬ u.is_superuser then (db, .httpError 403 "Not authorized")
  else
    match get_order db order_id none with
    | none => (db, .httpError 404 "Order not found")
    | some o =>
      match (match upd.status with
             | some st => update_order_status db order_id st upd.notes
             | none => Except.ok (db, o)) with
      | .error e => (db, .httpError 500 e)
      | .ok (db1, o1) =>
        match (match upd.payment_status with
               | some ps => update_payment_status db1 order_id ps
               | none => Except.ok (db1, o1)) with
        | .error e => (db1, .httpError 500 e)
        | .ok (db2, o2) =>
          match upd.tracking_number, upd.shipping_company with
          | some tn, some sc =>
            match update_shipping_info db2 order_id tn sc with
            | .ok (db3, o3) => (db3, .ok o3)
            | .error e => (db2, .httpError 500 e)
          | _, _ => (db2, .ok o2)

/-- Reference to one order as GET /api/v1/orders/{id_or_number} resolves it:
the path segment either parses as a UUID or is treated as an order number. -/
inductive OrderRef where
  | byId (order_id : Nat)
  | byNumber (number : String)
deriving Repr

/-- Endpoint GET /api/v1/orders/{id_or_number} (src/app/api/endpoints/orders.py,
read_order_endpoint).  Note that both lookups are filtered by the caller's
id, and only afterwards comes the ownership/superuser check. -/
def read_order_endpoint (db : DB) (r : OrderRef) (u : User) : ApiResult Order :=
  let found :=
    match r with
    | .byId oid => get_order db oid (some u.id)
    | .byNumber n => get_order_by_number db n (some u.id)
  match found with
  | none => .httpError 404 "Order not found"
  | some o =>
    if o.user_id ≠ u.id ∧ ¬ u.is_superuser then
      .httpError 403 "Not authorized to access this order"
    else
      .ok o

/-- Shop ids of the cart items whose listing resolves, one entry per item. -/
def cartShopIds (db : DB) (uid : Nat) : List Nat :=
  (userCartItems db uid).filterMap (fun ci =>
    (findShopProduct db ci.shop_product_id).map ShopProduct.shop_id)

/-- Total quantity of the user's cart items referencing one listing. -/
def orderedQty (db : DB) (uid : Nat) (pid : Nat) : Int :=
  (((userCartItems db uid).filter (fun ci => ci.shop_product_id == pid)).map
    CartItem.quantity).sum

/-- The order item the checkout creates for a cart item and the listing it
resolved to (the record literal of src/app/crud/order.py lines 90-97). -/
def mkOrderItemFor (db0 : DB) (order_id : Nat) (ci : CartItem) (sp : ShopProduct) :
    OrderItem :=
  { order_id := order_id
    shop_product_id := sp.id
    quantity := ci.quantity
    price := effectivePrice sp
    product_name := sp.name
    shop_name := shopNameOf db0 sp.shop_id }

/-- Sum the spec's wording of C2 ascribes to an order: over its items,
spec-effective unit price of the item's listing times the quantity. -/
def specBundleSum (db : DB) (b : Order × List OrderItem) : Rat :=
  (b.2.map (fun oi =>
    (match findShopProduct db oi.shop_product_id with
     | some sp => specEffectivePrice sp
     | none => 0) * (oi.quantity : Rat))).sum

/-- Shop id of a cart item's listing, when it resolves. -/
def shopOf (db : DB) (ci : CartItem) : Option Nat :=
  (findShopProduct db ci.shop_product_id).map ShopProduct.shop_id

/-- Total quantity of the items of a list referencing one listing. -/
def itemsQty (l : List CartItem) (pid : Nat) : Int :=
  ((l.filter (fun ci => ci.shop_product_id == pid)).map CartItem.quantity).sum

/-- A product transformation that can only touch the stock column. -/
def StockOnly (g : ShopProduct → ShopProduct) : Prop :=
  ∀ p, (g p).id = p.id ∧ (g p).shop_id = p.shop_id ∧ (g p).name = p.name ∧
    (g p).price = p.price ∧ (g p).sale_price = p.sale_price

/-! ## Concrete data for witnesses and counterexamples -/

/-- Two shops, one listing each; user 1's cart holds 2 of listing 11 (shop 1,
price 10) and 3 of listing 12 (shop 2, price 5) — the worked example of the
spec, section 8. -/
def exDb1 : DB :=
  { shops := [⟨1, "Shop A"⟩, ⟨2, "Shop B"⟩]
    shop_products := [⟨11, 1, "Filter", 10, none, 5⟩, ⟨12, 2, "Brake", 5, none, 7⟩]
    cart_items := [⟨100, 1, 11, 2⟩, ⟨101, 1, 12, 3⟩]
    orders := []
    order_items := []
    status_updates := []
    next_id := 1000 }

/-- The checkout of `exDb1` for user 1, with a fixed order-number generator. -/
def exCheckout1 : Except String (DB × List (Order × List OrderItem)) :=
  create_order_from_cart exDb1 1 "ship" "bill" PaymentMethod.credit_card none
    (fun n => toString n)

def exResult1 : DB × List (Order × List OrderItem) :=
  match exCheckout1 with
  | .ok r => r
  | .error _ => (exDb1, [])

/-- One listing with price 10 and sale price 0: Python truthiness ignores the
zero sale price. -/
def exDb2 : DB :=
  { shops := [⟨1, "S"⟩]
    shop_products := [⟨7, 1, "P", 10, some 0, 5⟩]
    cart_items := [⟨100, 1, 7, 1⟩]
    orders := []
    order_items := []
    status_updates := []
    next_id := 50 }

def exCheckout2 : Except String (DB × List (Order × List OrderItem)) :=
  create_order_from_cart exDb2 1 "ship" "bill" PaymentMethod.credit_card none
    (fun _ => "X")

/-- A database with one pending order (id 1, owned by user 1) containing one
item of shop 1's listing 11. -/
def exOrder5 : Order :=
  { id := 1
    user_id := 1
    order_number := "ORD-1"
    status := OrderStatus.pending
    total_amount := 20
    shipping_address := "s"
    billing_address := "b"
    payment_method := PaymentMethod.credit_card
    payment_status := PaymentStatus.pending
    tracking_number := none
    shipping_company := none
    notes := none }

def exDb5 : DB :=
  { shops := [⟨1, "Shop A"⟩]
    shop_products := [⟨11, 1, "Filter", 10, none, 5⟩]
    cart_items := []
    orders := [exOrder5]
    order_items := [⟨1, 11, 2, 10, "Filter", "Shop A"⟩]
    status_updates := [⟨1, OrderStatus.pending, some "Order created for shop: Shop A"⟩]
    next_id := 2 }

/-- A non-empty cart whose single item references a listing id (99) that no
shop product carries. -/
def exDb10 : DB :=
  { shops := [⟨1, "S"⟩]
    shop_products := [⟨7, 1, "P", 10, none, 5⟩]
    cart_items := [⟨100, 1, 99, 2⟩]
    orders := []
    order_items := []
    status_updates := []
    next_id := 60 }

/-- A superadmin, a logist of shop 1, and an ordinary customer. -/
def exAdmin : User := { id := 9, is_superuser := true, role := UserRole.superadmin, shop_id := none }

def exLogist : User := { id := 8, is_superuser := false, role := UserRole.logist, shop_id := some 1 }

def exCustomer : User := { id := 2, is_superuser := false, role := UserRole.customer, shop_id := none }

/-! ## Lemmas about the per-shop grouping -/

lemma insertByShop_map_fst (acc : List (Nat × List CartItem)) (sid : Nat) (ci : CartItem) :
    (insertByShop acc sid ci).map Prod.fst =
      if sid ∈ acc.map Prod.fst then acc.map Prod.fst else acc.map Prod.fst ++ [sid] := by
  induction acc with
  | nil => simp [insertByShop]
  | cons hd tl ih =>
    obtain ⟨s, l⟩ := hd
    by_cases hs : s = sid
    · subst hs
      simp [insertByShop]
    · simp only [insertByShop, if_neg hs, List.map_cons, ih, List.mem_cons]
      have hns : ¬ sid = s := fun h => hs h.symm
      by_cases hm : sid ∈ tl.map Prod.fst
      · simp [hm, hns]
      · simp [hm, hns]

lemma insertByShop_nodup_fst (acc : List (Nat × List CartItem)) (sid : Nat) (ci : CartItem)
    (h : (acc.map Prod.fst).Nodup) : ((insertByShop acc sid ci).map Prod.fst).Nodup := by
  rw [insertByShop_map_fst]
  by_cases hm : sid ∈ acc.map Prod.fst
  · simpa [hm] using h
  · simp only [if_neg hm]
    refine List.Nodup.append h (List.nodup_singleton sid) ?_
    intro a ha hb
    simp only [List.mem_singleton] at hb
    exact hm (hb ▸ ha)

lemma insertByShop_toFinset_fst (acc : List (Nat × List CartItem)) (sid : Nat) (ci : CartItem) :
    ((insertByShop acc sid ci).map Prod.fst).toFinset =
      insert sid (acc.map Prod.fst).toFinset := by
  rw [insertByShop_map_fst]
  by_cases hm : sid ∈ acc.map Prod.fst
  · rw [if_pos hm]
    have : sid ∈ (acc.map Prod.fst).toFinset := List.mem_toFinset.mpr hm
    rw [Finset.insert_eq_self.mpr this]
  · rw [if_neg hm, List.toFinset_append]
    simp [Finset.union_comm, Finset.insert_eq]

lemma insertByShop_mem (acc : List (Nat × List CartItem)) (sid : Nat) (ci : CartItem)
    {s : Nat} {l : List CartItem} (h : (s, l) ∈ insertByShop acc sid ci) :
    ∀ x ∈ l, (∃ l0, (s, l0) ∈ acc ∧ x ∈ l0) ∨ (x = ci ∧ s = sid) := by
  induction acc with
  | nil =>
    intro x hx
    simp only [insertByShop, List.mem_singleton] at h
    have h1 : s = sid := congrArg Prod.fst h
    have h2 : l = [ci] := congrArg Prod.snd h
    rw [h2] at hx
    simp only [List.mem_singleton] at hx
    exact Or.inr ⟨hx, h1⟩
  | cons hd tl ih =>
    obtain ⟨s0, l0⟩ := hd
    intro x hx
    by_cases hs : s0 = sid
    · rw [show insertByShop ((s0, l0) :: tl) sid ci = (s0, l0 ++ [ci]) :: tl by
        simp [insertByShop, hs]] at h
      rcases List.mem_cons.mp h with heq | hmem
      · have h1 : s = s0 := congrArg Prod.fst heq
        have h2 : l = l0 ++ [ci] := congrArg Prod.snd heq
        rw [h2] at hx
        rcases List.mem_append.mp hx with hx' | hx'
        · exact Or.inl ⟨l0, by rw [h1]; exact List.mem_cons_self _ _, hx'⟩
        · simp only [List.mem_singleton] at hx'
          exact Or.inr ⟨hx', h1.trans hs⟩
      · exact Or.inl ⟨l, List.mem_cons_of_mem _ hmem, hx⟩
    · rw [show insertByShop ((s0, l0) :: tl) sid ci = (s0, l0) :: insertByShop tl sid ci by
        simp [insertByShop, hs]] at h
      rcases List.mem_cons.mp h with heq | hmem
      · have h1 : s = s0 := congrArg Prod.fst heq
        have h2 : l = l0 := congrArg Prod.snd heq
        refine Or.inl ⟨l0, ?_, h2 ▸ hx⟩
        rw [h1]
        exact List.mem_cons_self _ _
      · rcases ih hmem x hx with ⟨l1, hl1, hx1⟩ | hq
        · exact Or.inl ⟨l1, List.mem_cons_of_mem _ hl1, hx1⟩
        · exact Or.inr hq

lemma insertByShop_join (acc : List (Nat × List CartItem)) (sid : Nat) (ci : CartItem) :
    ((insertByShop acc sid ci).map Prod.snd).flatten.Perm
      ((acc.map Prod.snd).flatten ++ [ci]) := by
  induction acc with
  | nil => simp [insertByShop]
  | cons hd tl ih =>
    obtain ⟨s, l⟩ := hd
    by_cases hs : s = sid
    · rw [show insertByShop ((s, l) :: tl) sid ci = (s, l ++ [ci]) :: tl by
        simp [insertByShop, hs]]
      simp only [List.map_cons, List.flatten_cons, List.append_assoc]
      exact List.Perm.append_left l List.perm_append_comm
    · rw [show insertByShop ((s, l) :: tl) sid ci = (s, l) :: insertByShop tl sid ci by
        simp [insertByShop, hs]]
      simp only [List.map_cons, List.flatten_cons, List.append_assoc]
      exact List.Perm.append_left l ih

lemma groupCartByShopAux_nodup_fst (db : DB) (items : List CartItem) :
    ∀ acc : List (Nat × List CartItem), (acc.map Prod.fst).Nodup →
      ((groupCartByShopAux db items acc).map Prod.fst).Nodup := by
  induction items with
  | nil => intro acc h; simpa [groupCartByShopAux] using h
  | cons ci rest ih =>
    intro acc h
    simp only [groupCartByShopAux]
    cases hf : findShopProduct db ci.shop_product_id with
    | none => exact ih acc h
    | some sp => exact ih _ (insertByShop_nodup_fst acc sp.shop_id ci h)

lemma groupCartByShopAux_toFinset_fst (db : DB) (items : List CartItem) :
    ∀ acc : List (Nat × List CartItem),
      ((groupCartByShopAux db items acc).map Prod.fst).toFinset =
        (acc.map Prod.fst).toFinset ∪ (items.filterMap (shopOf db)).toFinset := by
  induction items with
  | nil => intro acc; simp [groupCartByShopAux]
  | cons ci rest ih =>
    intro acc
    simp only [groupCartByShopAux, List.filterMap_cons]
    cases hf : findShopProduct db ci.shop_product_id with
    | none =>
      simp only [shopOf, hf, Option.map_none']
      exact ih acc
    | some sp =>
      simp only [shopOf, hf, Option.map_some']
      rw [ih _, insertByShop_toFinset_fst]
      ext a
      simp only [Finset.mem_union, Finset.mem_insert, List.mem_toFinset, List.mem_cons]
      tauto

lemma groupCartByShopAux_mem (db : DB) (items : List CartItem)
    (P : CartItem → Nat → Prop) :
    ∀ acc : List (Nat × List CartItem),
      (∀ s l, (s, l) ∈ acc → ∀ ci ∈ l, P ci s) →
      (∀ ci ∈ items, ∀ sp, findShopProduct db ci.shop_product_id = some sp →
        P ci sp.shop_id) →
      ∀ s l, (s, l) ∈ groupCartByShopAux db items acc → ∀ ci ∈ l, P ci s := by
  induction items with
  | nil =>
    intro acc hacc _ s l hmem
    exact hacc s l hmem
  | cons ci rest ih =>
    intro acc hacc hitems s l hmem
    simp only [groupCartByShopAux] at hmem
    cases hf : findShopProduct db ci.shop_product_id with
    | none =>
      rw [hf] at hmem
      exact ih acc hacc (fun x hx => hitems x (List.mem_cons_of_mem _ hx)) s l hmem
    | some sp =>
      rw [hf] at hmem
      refine ih _ ?_ (fun x hx => hitems x (List.mem_cons_of_mem _ hx)) s l hmem
      intro s' l' hins x hx
      rcases insertByShop_mem acc sp.shop_id ci hins x hx with ⟨l0, hl0, hxl0⟩ | ⟨hx', hs'⟩
      · exact hacc s' l0 hl0 x hxl0
      · subst hx'; subst hs'
        exact hitems x (List.mem_cons_self _ _) sp hf

lemma groupCartByShopAux_join (db : DB) (items : List CartItem) :
    ∀ acc : List (Nat × List CartItem),
      ((groupCartByShopAux db items acc).map Prod.snd).flatten.Perm
        ((acc.map Prod.snd).flatten ++
          items.filter (fun ci => (findShopProduct db ci.shop_product_id).isSome)) := by
  induction items with
  | nil => intro acc; simp [groupCartByShopAux]
  | cons ci rest ih =>
    intro acc
    simp only [groupCartByShopAux, List.filter_cons]
    cases hf : findShopProduct db ci.shop_product_id with
    | none =>
      simp only [hf, Option.isSome_none, Bool.false_eq_true, if_false]
      exact ih acc
    | some sp =>
      simp only [hf, Option.isSome_some, if_true]
      have h1 := ih (insertByShop acc sp.shop_id ci)
      have h2 := List.Perm.append (insertByShop_join acc sp.shop_id ci)
        (List.Perm.refl
          (rest.filter (fun x => (findShopProduct db x.shop_product_id).isSome)))
      have h3 := h1.trans h2
      rw [List.append_assoc] at h3
      exact h3

/-! ## Lemmas about per-group item processing -/

lemma clamp_clamp (s q Q : Int) (hQ : 0 ≤ Q) :
    max 0 (max 0 (s - q) - Q) = max 0 (s - q - Q) := by
  rcases le_total (s - q) 0 with h | h
  · rw [max_eq_left h]
    have h1 : s - q - Q ≤ 0 := by omega
    rw [max_eq_left h1]
    omega
  · rw [max_eq_right h]

lemma itemsQty_nil (pid : Nat) : itemsQty [] pid = 0 := rfl

lemma itemsQty_cons (ci : CartItem) (rest : List CartItem) (pid : Nat) :
    itemsQty (ci :: rest) pid =
      (if ci.shop_product_id = pid then ci.quantity else 0) + itemsQty rest pid := by
  by_cases h : ci.shop_product_id = pid
  · simp [itemsQty, List.filter_cons, h]
  · simp [itemsQty, List.filter_cons, h]

lemma itemsQty_nonneg (l : List CartItem) (pid : Nat)
    (h : ∀ ci ∈ l, 0 ≤ ci.quantity) : 0 ≤ itemsQty l pid := by
  apply List.sum_nonneg
  intro x hx
  rcases List.mem_map.mp hx with ⟨ci, hci, hq⟩
  exact hq ▸ h ci (List.mem_of_mem_filter hci)

lemma itemsQty_append (l1 l2 : List CartItem) (pid : Nat) :
    itemsQty (l1 ++ l2) pid = itemsQty l1 pid + itemsQty l2 pid := by
  simp [itemsQty, List.filter_append]

lemma itemsQty_perm {l1 l2 : List CartItem} (h : l1.Perm l2) (pid : Nat) :
    itemsQty l1 pid = itemsQty l2 pid :=
  ((h.filter _).map _).sum_eq

lemma effectivePrice_congr {p q : ShopProduct} (hp : q.price = p.price)
    (hsp : q.sale_price = p.sale_price) : effectivePrice q = effectivePrice p := by
  simp [effectivePrice, hp, hsp]

lemma processGroupItems_fst (db0 : DB) (oid : Nat) :
    ∀ (items : List CartItem) (ps : List ShopProduct),
      (∀ ci ∈ items, 0 ≤ ci.quantity) →
      (∀ p ∈ ps, 0 ≤ p.stock_quantity) →
      (processGroupItems db0 oid ps items).1 =
        ps.map (fun p =>
          { p with stock_quantity := max 0 (p.stock_quantity - itemsQty items p.id) }) := by
  intro items
  induction items with
  | nil =>
    intro ps _ hs
    have heach : ∀ p ∈ ps,
        ({ p with stock_quantity := max 0 (p.stock_quantity - itemsQty [] p.id) } :
          ShopProduct) = p := by
      intro p hp
      have : max 0 (p.stock_quantity - itemsQty [] p.id) = p.stock_quantity := by
        rw [itemsQty_nil, sub_zero]
        exact max_eq_right (hs p hp)
      rw [this]
    rw [show processGroupItems db0 oid ps [] = (ps, []) from rfl]
    rw [List.map_congr_left heach]
    exact (List.map_id ps).symm
  | cons ci rest ih =>
    intro ps hq hs
    have hqr : ∀ x ∈ rest, 0 ≤ x.quantity := fun x hx => hq x (List.mem_cons_of_mem _ hx)
    cases hf : findProductIn ps ci.shop_product_id with
    | none =>
      have hstep : processGroupItems db0 oid ps (ci :: rest) =
          processGroupItems db0 oid ps rest := by
        simp only [processGroupItems, hf]
      rw [hstep, ih ps hqr hs]
      apply List.map_congr_left
      intro p hp
      have hne : p.id ≠ ci.shop_product_id := by
        have := List.find?_eq_none.mp hf p hp
        simpa using this
      have : itemsQty (ci :: rest) p.id = itemsQty rest p.id := by
        rw [itemsQty_cons, if_neg (fun h => hne h.symm), zero_add]
      rw [this]
    | some sp =>
      have hspid : sp.id = ci.shop_product_id := by
        have := List.find?_some hf
        simpa using this
      have hstep : (processGroupItems db0 oid ps (ci :: rest)).1 =
          (processGroupItems db0 oid (updateStockList ps sp.id ci.quantity) rest).1 := by
        simp only [processGroupItems, hf]
      have hs' : ∀ p ∈ updateStockList ps sp.id ci.quantity, 0 ≤ p.stock_quantity := by
        intro p hp
        rcases List.mem_map.mp hp with ⟨q, hq', rfl⟩
        by_cases hqi : q.id = sp.id
        · simp only [updateStockList, if_pos hqi]
          exact le_max_left _ _
        · simp only [updateStockList, if_neg hqi]
          exact hs q hq'
      rw [hstep, ih _ hqr hs']
      unfold updateStockList
      rw [List.map_map]
      apply List.map_congr_left
      intro p hp
      have hQ : 0 ≤ itemsQty rest p.id := itemsQty_nonneg rest p.id hqr
      by_cases hpi : p.id = sp.id
      · have hcond : ci.shop_product_id = p.id := by rw [hpi, hspid]
        simp only [Function.comp_apply, if_pos hpi]
        have : itemsQty (ci :: rest) p.id = ci.quantity + itemsQty rest p.id := by
          rw [itemsQty_cons, if_pos hcond]
        rw [this]
        have := clamp_clamp p.stock_quantity ci.quantity (itemsQty rest p.id) hQ
        simp only [this, sub_sub]
      · have hcond : ¬ ci.shop_product_id = p.id := by
          rw [← hspid]; exact fun h => hpi h.symm
        simp only [Function.comp_apply, if_neg hpi]
        have : itemsQty (ci :: rest) p.id = itemsQty rest p.id := by
          rw [itemsQty_cons, if_neg hcond, zero_add]
        rw [this]

lemma processGroupItems_snd_map (db0 : DB) (oid : Nat) :
    ∀ (items : List CartItem) (ps : List ShopProduct) (g : ShopProduct → ShopProduct),
      (∀ p, (g p).id = p.id) → (∀ p, (g p).shop_id = p.shop_id) →
      (∀ p, (g p).name = p.name) → (∀ p, (g p).price = p.price) →
      (∀ p, (g p).sale_price = p.sale_price) →
      (processGroupItems db0 oid (ps.map g) items).2 =
        items.filterMap (fun ci => (findProductIn ps ci.shop_product_id).map
          (mkOrderItemFor db0 oid ci)) := by
  intro items
  induction items with
  | nil => intro ps g _ _ _ _ _; rfl
  | cons ci rest ih =>
    intro ps g hid hshop hname hprice hsale
    have hpred : ((fun p => p.id == ci.shop_product_id) ∘ g) =
        (fun p : ShopProduct => p.id == ci.shop_product_id) := by
      funext p
      simp [Function.comp_apply, hid p]
    have hfind : findProductIn (ps.map g) ci.shop_product_id =
        (findProductIn ps ci.shop_product_id).map g := by
      unfold findProductIn
      rw [List.find?_map, hpred]
    cases hf : findProductIn ps ci.shop_product_id with
    | none =>
      have hstep : processGroupItems db0 oid (ps.map g) (ci :: rest) =
          processGroupItems db0 oid (ps.map g) rest := by
        simp only [processGroupItems, hfind, hf, Option.map_none']
      rw [hstep, ih ps g hid hshop hname hprice hsale, List.filterMap_cons, hf,
        Option.map_none']
    | some sp =>
      have hgf : findProductIn (ps.map g) ci.shop_product_id = some (g sp) := by
        rw [hfind, hf, Option.map_some']
      have hitem :
          ({ order_id := oid
             shop_product_id := (g sp).id
             quantity := ci.quantity
             price := effectivePrice (g sp)
             product_name := (g sp).name
             shop_name := shopNameOf db0 (g sp).shop_id } : OrderItem) =
            mkOrderItemFor db0 oid ci sp := by
        unfold mkOrderItemFor
        rw [hid, hname, hshop, effectivePrice_congr (hprice sp) (hsale sp)]
      have hupd : updateStockList (ps.map g) (g sp).id ci.quantity =
          ps.map ((fun q =>
            if q.id = (g sp).id then
              { q with stock_quantity := max 0 (q.stock_quantity - ci.quantity) }
            else q) ∘ g) := by
        unfold updateStockList
        rw [List.map_map]
      have hstep : (processGroupItems db0 oid (ps.map g) (ci :: rest)).2 =
          ({ order_id := oid
             shop_product_id := (g sp).id
             quantity := ci.quantity
             price := effectivePrice (g sp)
             product_name := (g sp).name
             shop_name := shopNameOf db0 (g sp).shop_id } : OrderItem) ::
            (processGroupItems db0 oid
              (updateStockList (ps.map g) (g sp).id ci.quantity) rest).2 := by
        simp only [processGroupItems, hgf]
      have hid' : ∀ p : ShopProduct,
          (((fun q : ShopProduct => if q.id = (g sp).id then
              { q with stock_quantity := max 0 (q.stock_quantity - ci.quantity) }
            else q) ∘ g) p).id = p.id := by
        intro p
        by_cases h : (g p).id = (g sp).id
        · simp only [Function.comp_apply, if_pos h]
          exact hid p
        · simp only [Function.comp_apply, if_neg h]
          exact hid p
      have hshop' : ∀ p : ShopProduct,
          (((fun q : ShopProduct => if q.id = (g sp).id then
              { q with stock_quantity := max 0 (q.stock_quantity - ci.quantity) }
            else q) ∘ g) p).shop_id = p.shop_id := by
        intro p
        by_cases h : (g p).id = (g sp).id
        · simp only [Function.comp_apply, if_pos h]
          exact hshop p
        · simp only [Function.comp_apply, if_neg h]
          exact hshop p
      have hname' : ∀ p : ShopProduct,
          (((fun q : ShopProduct => if q.id = (g sp).id then
              { q with stock_quantity := max 0 (q.stock_quantity - ci.quantity) }
            else q) ∘ g) p).name = p.name := by
        intro p
        by_cases h : (g p).id = (g sp).id
        · simp only [Function.comp_apply, if_pos h]
          exact hname p
        · simp only [Function.comp_apply, if_neg h]
          exact hname p
      have hprice' : ∀ p : ShopProduct,
          (((fun q : ShopProduct => if q.id = (g sp).id then
              { q with stock_quantity := max 0 (q.stock_quantity - ci.quantity) }
            else q) ∘ g) p).price = p.price := by
        intro p
        by_cases h : (g p).id = (g sp).id
        · simp only [Function.comp_apply, if_pos h]
          exact hprice p
        · simp only [Function.comp_apply, if_neg h]
          exact hprice p
      have hsale' : ∀ p : ShopProduct,
          (((fun q : ShopProduct => if q.id = (g sp).id then
              { q with stock_quantity := max 0 (q.stock_quantity - ci.quantity) }
            else q) ∘ g) p).sale_price = p.sale_price := by
        intro p
        by_cases h : (g p).id = (g sp).id
        · simp only [Function.comp_apply, if_pos h]
          exact hsale p
        · simp only [Function.comp_apply, if_neg h]
          exact hsale p
      rw [hstep, hitem, hupd, ih ps _ hid' hshop' hname' hprice' hsale',
        List.filterMap_cons, hf, Option.map_some']

lemma processGroupItems_snd (db0 : DB) (oid : Nat) (items : List CartItem)
    (ps : List ShopProduct) :
    (processGroupItems db0 oid ps items).2 =
      items.filterMap (fun ci => (findProductIn ps ci.shop_product_id).map
        (mkOrderItemFor db0 oid ci)) := by
  have h := processGroupItems_snd_map db0 oid items ps id
    (fun _ => rfl) (fun _ => rfl) (fun _ => rfl) (fun _ => rfl) (fun _ => rfl)
  rwa [List.map_id] at h

lemma processGroupItems_order_ids (db0 : DB) (oid : Nat) (items : List CartItem)
    (ps : List ShopProduct) :
    ∀ oi ∈ (processGroupItems db0 oid ps items).2, oi.order_id = oid := by
  rw [processGroupItems_snd]
  intro oi h
  rcases List.mem_filterMap.mp h with ⟨ci, _, hmap⟩
  rcases Option.map_eq_some'.mp hmap with ⟨sp, _, hoi⟩
  rw [← hoi]
  rfl

lemma stockOnly_id : StockOnly id := fun _ => ⟨rfl, rfl, rfl, rfl, rfl⟩

lemma StockOnly.comp {g f : ShopProduct → ShopProduct} (hg : StockOnly g)
    (hf : StockOnly f) : StockOnly (f ∘ g) := by
  intro p
  obtain ⟨h1, h2, h3, h4, h5⟩ := hf (g p)
  obtain ⟨k1, k2, k3, k4, k5⟩ := hg p
  exact ⟨h1.trans k1, h2.trans k2, h3.trans k3, h4.trans k4, h5.trans k5⟩

lemma stockOnly_update (x : Nat) (qty : Int) :
    StockOnly (fun q : ShopProduct =>
      if q.id = x then { q with stock_quantity := max 0 (q.stock_quantity - qty) }
      else q) := by
  intro p
  by_cases h : p.id = x
  · simp [h]
  · simp [h]

lemma processGroupItems_snd_stockOnly (db0 : DB) (oid : Nat) (items : List CartItem)
    (ps : List ShopProduct) (g : ShopProduct → ShopProduct) (hg : StockOnly g) :
    (processGroupItems db0 oid (ps.map g) items).2 =
      items.filterMap (fun ci => (findProductIn ps ci.shop_product_id).map
        (mkOrderItemFor db0 oid ci)) :=
  processGroupItems_snd_map db0 oid items ps g (fun p => (hg p).1)
    (fun p => (hg p).2.1) (fun p => (hg p).2.2.1) (fun p => (hg p).2.2.2.1)
    (fun p => (hg p).2.2.2.2)

lemma processGroupItems_fst_map (db0 : DB) (oid : Nat) :
    ∀ (items : List CartItem) (ps : List ShopProduct) (g : ShopProduct → ShopProduct),
      StockOnly g → ∃ g', StockOnly g' ∧
        (processGroupItems db0 oid (ps.map g) items).1 = ps.map g' := by
  intro items
  induction items with
  | nil => intro ps g hg; exact ⟨g, hg, rfl⟩
  | cons ci rest ih =>
    intro ps g hg
    cases hf : findProductIn (ps.map g) ci.shop_product_id with
    | none =>
      obtain ⟨g', h1, h2⟩ := ih ps g hg
      refine ⟨g', h1, ?_⟩
      have hstep : processGroupItems db0 oid (ps.map g) (ci :: rest) =
          processGroupItems db0 oid (ps.map g) rest := by
        simp only [processGroupItems, hf]
      rw [hstep]
      exact h2
    | some sp =>
      have hupd : updateStockList (ps.map g) sp.id ci.quantity =
          ps.map ((fun q : ShopProduct =>
            if q.id = sp.id then
              { q with stock_quantity := max 0 (q.stock_quantity - ci.quantity) }
            else q) ∘ g) := by
        unfold updateStockList
        rw [List.map_map]
      obtain ⟨g', h1, h2⟩ := ih ps _ (hg.comp (stockOnly_update sp.id ci.quantity))
      refine ⟨g', h1, ?_⟩
      have hstep : (processGroupItems db0 oid (ps.map g) (ci :: rest)).1 =
          (processGroupItems db0 oid
            (updateStockList (ps.map g) sp.id ci.quantity) rest).1 := by
        simp only [processGroupItems, hf]
      rw [hstep, hupd]
      exact h2

/-! ## The group total equals the sum over the created order items -/

lemma groupTotalAux_add (ps : List ShopProduct) :
    ∀ (items : List CartItem) (t : Rat),
      groupTotalAux ps items t = t + groupTotalAux ps items 0 := by
  intro items
  induction items with
  | nil => intro t; simp [groupTotalAux]
  | cons ci rest ih =>
    intro t
    cases hf : findProductIn ps ci.shop_product_id with
    | none =>
      simp only [groupTotalAux, hf]
      exact ih t
    | some sp =>
      simp only [groupTotalAux, hf]
      rw [ih (t + effectivePrice sp * (ci.quantity : Rat)),
        ih (0 + effectivePrice sp * (ci.quantity : Rat))]
      ring

lemma groupTotal_eq (db0 : DB) (oid : Nat) (ps : List ShopProduct)
    (items : List CartItem) :
    groupTotal ps items =
      ((processGroupItems db0 oid ps items).2.map
        (fun oi => oi.price * (oi.quantity : Rat))).sum := by
  rw [processGroupItems_snd]
  induction items with
  | nil => rfl
  | cons ci rest ih =>
    cases hf : findProductIn ps ci.shop_product_id with
    | none =>
      rw [List.filterMap_cons, hf]
      simp only [Option.map_none']
      show groupTotalAux ps (ci :: rest) 0 = _
      simp only [groupTotalAux, hf]
      exact ih
    | some sp =>
      rw [List.filterMap_cons, hf]
      simp only [Option.map_some', List.map_cons, List.sum_cons]
      show groupTotalAux ps (ci :: rest) 0 = _
      simp only [groupTotalAux, hf]
      rw [groupTotalAux_add ps rest (0 + effectivePrice sp * (ci.quantity : Rat))]
      have : (mkOrderItemFor db0 oid ci sp).price *
          ((mkOrderItemFor db0 oid ci sp).quantity : Rat) =
            effectivePrice sp * (ci.quantity : Rat) := rfl
      rw [this, ← ih, zero_add]
      rfl

/-! ## Lemmas about the per-shop order loop -/

lemma processGroups_length (db0 : DB) (uid : Nat) (ship bill : String)
    (pm : PaymentMethod) (nts : Option String) (gen : Nat → String) :
    ∀ (groups : List (Nat × List CartItem)) (ps : List ShopProduct) (n : Nat),
      (processGroups db0 uid ship bill pm nts gen ps n groups).bundles.length =
        groups.length := by
  intro groups
  induction groups with
  | nil => intro ps n; rfl
  | cons grp rest ih =>
    intro ps n
    obtain ⟨sid, items⟩ := grp
    simp only [processGroups, List.length_cons]
    rw [ih]

lemma processGroups_bundle_id (db0 : DB) (uid : Nat) (ship bill : String)
    (pm : PaymentMethod) (nts : Option String) (gen : Nat → String) :
    ∀ (groups : List (Nat × List CartItem)) (ps : List ShopProduct) (n : Nat)
      (i : Nat)
      (hi : i < (processGroups db0 uid ship bill pm nts gen ps n groups).bundles.length),
      ((processGroups db0 uid ship bill pm nts gen ps n groups).bundles.get
        ⟨i, hi⟩).1.id = n + i := by
  intro groups
  induction groups with
  | nil =>
    intro ps n i hi
    simp [processGroups] at hi
  | cons grp rest ih =>
    intro ps n i hi
    obtain ⟨sid, items⟩ := grp
    cases i with
    | zero =>
      simp only [processGroups]
      rfl
    | succ j =>
      have hj : j < (processGroups db0 uid ship bill pm nts gen
          (processGroup db0 ps uid ship bill pm nts gen n items).products (n + 1)
          rest).bundles.length := by
        have := hi
        simp only [processGroups, List.length_cons] at this
        omega
      have hrec := ih (processGroup db0 ps uid ship bill pm nts gen n items).products
        (n + 1) j hj
      have hstep : ((processGroups db0 uid ship bill pm nts gen ps n
          ((sid, items) :: rest)).bundles.get ⟨j + 1, hi⟩) =
          ((processGroups db0 uid ship bill pm nts gen
            (processGroup db0 ps uid ship bill pm nts gen n items).products (n + 1)
            rest).bundles.get ⟨j, hj⟩) := by
        simp only [processGroups, List.get_cons_succ]
      rw [hstep, hrec]
      omega

lemma processGroups_item_ids (db0 : DB) (uid : Nat) (ship bill : String)
    (pm : PaymentMethod) (nts : Option String) (gen : Nat → String) :
    ∀ (groups : List (Nat × List CartItem)) (ps : List ShopProduct) (n : Nat),
      ∀ b ∈ (processGroups db0 uid ship bill pm nts gen ps n groups).bundles,
        ∀ oi ∈ b.2, oi.order_id = b.1.id := by
  intro groups
  induction groups with
  | nil =>
    intro ps n b hb
    simp [processGroups] at hb
  | cons grp rest ih =>
    intro ps n b hb
    obtain ⟨sid, items⟩ := grp
    simp only [processGroups, List.mem_cons] at hb
    rcases hb with hb | hb
    · intro oi hoi
      rw [hb]
      rw [hb] at hoi
      exact processGroupItems_order_ids db0 n items ps oi hoi
    · exact ih _ (n + 1) b hb

lemma processGroups_bundles (db0 : DB) (uid : Nat) (ship bill : String)
    (pm : PaymentMethod) (nts : Option String) (gen : Nat → String) :
    ∀ (groups : List (Nat × List CartItem)) (g : ShopProduct → ShopProduct) (n : Nat),
      StockOnly g →
      List.Forall₂ (fun (grp : Nat × List CartItem) (b : Order × List OrderItem) =>
          b.2 = grp.2.filterMap (fun ci =>
            (findProductIn db0.shop_products ci.shop_product_id).map
              (mkOrderItemFor db0 b.1.id ci)) ∧
          b.1.total_amount =
            (b.2.map (fun oi => oi.price * (oi.quantity : Rat))).sum ∧
          b.1.status = OrderStatus.pending ∧
          b.1.payment_status = PaymentStatus.pending ∧
          b.1.user_id = uid)
        groups
        (processGroups db0 uid ship bill pm nts gen
          (db0.shop_products.map g) n groups).bundles := by
  intro groups
  induction groups with
  | nil =>
    intro g n hg
    exact List.Forall₂.nil
  | cons grp rest ih =>
    intro g n hg
    obtain ⟨sid, items⟩ := grp
    obtain ⟨g', hg', hps'⟩ :=
      processGroupItems_fst_map db0 n items db0.shop_products g hg
    have hstep : (processGroups db0 uid ship bill pm nts gen
        (db0.shop_products.map g) n ((sid, items) :: rest)).bundles =
        (processGroup db0 (db0.shop_products.map g) uid ship bill pm nts gen n
          items |>.order,
         processGroup db0 (db0.shop_products.map g) uid ship bill pm nts gen n
          items |>.items) ::
        (processGroups db0 uid ship bill pm nts gen
          (processGroup db0 (db0.shop_products.map g) uid ship bill pm nts gen n
            items).products (n + 1) rest).bundles := by
      simp only [processGroups]
    rw [hstep]
    refine List.Forall₂.cons ?_ ?_
    · refine ⟨?_, ?_, rfl, rfl, rfl⟩
      · exact processGroupItems_snd_stockOnly db0 n items db0.shop_products g hg
      · exact groupTotal_eq db0 n (db0.shop_products.map g) items
    · have hprod : (processGroup db0 (db0.shop_products.map g) uid ship bill pm nts
          gen n items).products = db0.shop_products.map g' := hps'
      rw [hprod]
      exact ih g' (n + 1) hg'

lemma processGroups_products (db0 : DB) (uid : Nat) (ship bill : String)
    (pm : PaymentMethod) (nts : Option String) (gen : Nat → String) :
    ∀ (groups : List (Nat × List CartItem)) (ps : List ShopProduct) (n : Nat),
      (∀ grp ∈ groups, ∀ ci ∈ grp.2, 0 ≤ ci.quantity) →
      (∀ p ∈ ps, 0 ≤ p.stock_quantity) →
      (processGroups db0 uid ship bill pm nts gen ps n groups).products =
        ps.map (fun p =>
          { p with stock_quantity := max 0 (p.stock_quantity - itemsQty ((groups.map Prod.snd).flatten) p.id) }) := by
  intro groups
  induction groups with
  | nil =>
    intro ps n _ hs
    have heach : ∀ p ∈ ps,
        ({ p with stock_quantity := max 0 (p.stock_quantity - itemsQty ((([] : List (Nat × List CartItem)).map Prod.snd).flatten) p.id) } : ShopProduct) = p := by
      intro p hp
      have h0 : max 0 (p.stock_quantity - itemsQty ((([] : List (Nat × List CartItem)).map Prod.snd).flatten) p.id) = p.stock_quantity := by
        rw [show itemsQty ((([] : List (Nat × List CartItem)).map Prod.snd).flatten) p.id = 0 from rfl, sub_zero]
        exact max_eq_right (hs p hp)
      rw [h0]
    rw [show (processGroups db0 uid ship bill pm nts gen ps n []).products = ps
      from rfl]
    rw [List.map_congr_left heach]
    exact (List.map_id ps).symm
  | cons grp rest ih =>
    intro ps n hq hs
    obtain ⟨sid, items⟩ := grp
    have hqi : ∀ ci ∈ items, 0 ≤ ci.quantity :=
      fun ci hci => hq (sid, items) (List.mem_cons_self _ _) ci hci
    have hqr : ∀ g' ∈ rest, ∀ ci ∈ g'.2, 0 ≤ ci.quantity :=
      fun g' hg' => hq g' (List.mem_cons_of_mem _ hg')
    have hqflat : ∀ ci ∈ (rest.map Prod.snd).flatten, 0 ≤ ci.quantity := by
      intro ci hci
      rcases List.mem_flatten.mp hci with ⟨l, hl, hcil⟩
      rcases List.mem_map.mp hl with ⟨g', hg', rfl⟩
      exact hqr g' hg' ci hcil
    have hfirst := processGroupItems_fst db0 n items ps hqi hs
    have hstep : (processGroups db0 uid ship bill pm nts gen ps n
        ((sid, items) :: rest)).products =
        (processGroups db0 uid ship bill pm nts gen
          (processGroup db0 ps uid ship bill pm nts gen n items).products (n + 1)
          rest).products := by
      simp only [processGroups]
    have hprod : (processGroup db0 ps uid ship bill pm nts gen n items).products =
        ps.map (fun p => { p with stock_quantity := max 0 (p.stock_quantity - itemsQty items p.id) }) := hfirst
    have hs' : ∀ p ∈ ps.map (fun p => { p with stock_quantity := max 0 (p.stock_quantity - itemsQty items p.id) }), 0 ≤ p.stock_quantity := by
      intro p hp
      rcases List.mem_map.mp hp with ⟨q, _, rfl⟩
      exact le_max_left _ _
    rw [hstep, hprod, ih _ (n + 1) hqr hs', List.map_map]
    apply List.map_congr_left
    intro p hp
    have hQ : 0 ≤ itemsQty ((rest.map Prod.snd).flatten) p.id :=
      itemsQty_nonneg _ p.id hqflat
    have hflat : itemsQty (((((sid, items) :: rest)).map Prod.snd).flatten) p.id =
        itemsQty items p.id + itemsQty ((rest.map Prod.snd).flatten) p.id := by
      simp only [List.map_cons, List.flatten_cons]
      exact itemsQty_append items _ p.id
    simp only [Function.comp_apply]
    have := clamp_clamp p.stock_quantity (itemsQty items p.id)
      (itemsQty ((rest.map Prod.snd).flatten) p.id) hQ
    simp only [this, sub_sub, hflat]

lemma groupCartByShopAux_unresolved (db : DB) :
    ∀ (items : List CartItem) (acc : List (Nat × List CartItem)),
      (∀ ci ∈ items, findShopProduct db ci.shop_product_id = none) →
      groupCartByShopAux db items acc = acc := by
  intro items
  induction items with
  | nil => intro acc _; rfl
  | cons ci rest ih =>
    intro acc h
    have hstep : groupCartByShopAux db (ci :: rest) acc =
        groupCartByShopAux db rest acc := by
      simp only [groupCartByShopAux, h ci (List.mem_cons_self _ _)]
    rw [hstep]
    exact ih acc (fun x hx => h x (List.mem_cons_of_mem _ hx))

lemma create_ok_dest (db : DB) (uid : Nat) (ship bill : String) (pm : PaymentMethod)
    (nts : Option String) (gen : Nat → String) (r : DB × List (Order × List OrderItem))
    (hok : create_order_from_cart db uid ship bill pm nts gen = Except.ok r) :
    r.2 = (processGroups db uid ship bill pm nts gen db.shop_products db.next_id
            (groupCartByShop db (userCartItems db uid))).bundles ∧
    r.1 = { db with
      shop_products := (processGroups db uid ship bill pm nts gen db.shop_products
        db.next_id (groupCartByShop db (userCartItems db uid))).products
      orders := db.orders ++ ((processGroups db uid ship bill pm nts gen
        db.shop_products db.next_id
        (groupCartByShop db (userCartItems db uid))).bundles.map Prod.fst)
      order_items := db.order_items ++ (((processGroups db uid ship bill pm nts gen
        db.shop_products db.next_id
        (groupCartByShop db (userCartItems db uid))).bundles.map Prod.snd).flatten)
      status_updates := db.status_updates ++ (processGroups db uid ship bill pm nts
        gen db.shop_products db.next_id
        (groupCartByShop db (userCartItems db uid))).updates
      cart_items := db.cart_items.filter (fun ci => ci.user_id != uid)
      next_id := (processGroups db uid ship bill pm nts gen db.shop_products
        db.next_id (groupCartByShop db (userCartItems db uid))).nid } := by
  by_cases hemp : (userCartItems db uid).isEmpty
  · unfold create_order_from_cart at hok
    rw [if_pos hemp] at hok
    simp at hok
  · unfold create_order_from_cart at hok
    rw [if_neg hemp] at hok
    have h := (Except.ok.injEq _ _).mp hok
    constructor
    · rw [← h]
    · rw [← h]

/-! ## Helper lemmas about order lookup and replacement -/

lemma get_order_none_pred (db : DB) (oid : Nat) :
    get_order db oid none = db.orders.find? (fun o => o.id == oid) := by
  unfold get_order
  simp only [Bool.and_true]

lemma find?_replace (oid : Nat) (o o' : Order) (hid : o'.id = o.id) :
    ∀ l : List Order, l.find? (fun q => q.id == oid) = some o →
      (l.map (fun q => if q.id = o.id then o' else q)).find?
        (fun q => q.id == oid) = some o' := by
  intro l
  induction l with
  | nil => intro h; simp at h
  | cons x xs ih =>
    intro h
    by_cases hx : (x.id == oid) = true
    · have hxo : x = o := by
        rw [@List.find?_cons_of_pos _ (fun q => q.id == oid) x xs hx] at h
        exact Option.some.inj h
      have hxid : x.id = o.id := by rw [hxo]
      have ho'id : (o'.id == oid) = true := by
        have hx' : x.id = oid := by simpa using hx
        simp [hid, ← hxo, hx']
      rw [List.map_cons, if_pos hxid,
        @List.find?_cons_of_pos _ (fun q => q.id == oid) o'
          (xs.map (fun q => if q.id = o.id then o' else q)) ho'id]
    · have h' : xs.find? (fun q => q.id == oid) = some o := by
        rw [@List.find?_cons_of_neg _ (fun q => q.id == oid) x xs hx] at h
        exact h
      have hoid : o.id = oid := by simpa using List.find?_some h'
      have hxne : ¬ x.id = o.id := by
        intro hcontra
        exact hx (by simp [hcontra, hoid])
      rw [List.map_cons, if_neg hxne,
        @List.find?_cons_of_neg _ (fun q => q.id == oid) x
          (xs.map (fun q => if q.id = o.id then o' else q)) hx]
      exact ih h'

lemma get_order_id (db : DB) (oid : Nat) (o : Order)
    (h : get_order db oid none = some o) : o.id = oid := by
  rw [get_order_none_pred] at h
  simpa using List.find?_some h

lemma get_order_after_set (db : DB) (oid : Nat) (o o' : Order)
    (h : get_order db oid none = some o) (hid : o'.id = o.id) :
    get_order (setOrder db o') oid none = some o' := by
  rw [get_order_none_pred] at h ⊢
  show ((db.orders.map (fun q => if q.id = o'.id then o' else q))).find?
    (fun q => q.id == oid) = some o'
  rw [hid]
  exact find?_replace oid o o' hid db.orders h

lemma get_order_ignores_updates (db : DB) (oid : Nat) (rows : List StatusUpdateRow) :
    get_order { db with status_updates := rows } oid none = get_order db oid none := rfl

/-! ## C3: empty cart -/

/-- C3: when the user's cart has no items, create_order_from_cart raises the
"Cart is empty" error, and the POST /orders endpoint turns it into a 400
response while returning the database unchanged — no order, order item,
status update, inventory change, or cart deletion is persisted. -/
theorem c3_empty_cart_error (db : DB) (uid : Nat) (ship bill : String)
    (pm : PaymentMethod) (nts : Option String) (gen : Nat → String)
    (h : userCartItems db uid = []) :
    create_order_from_cart db uid ship bill pm nts gen =
      Except.error "Cart is empty" ∧
    create_order db uid ship bill pm nts gen =
      (db, ApiResult.httpError 400 "Cart is empty") := by
  have hcrud : create_order_from_cart db uid ship bill pm nts gen =
      Except.error "Cart is empty" := by
    unfold create_order_from_cart
    rw [h]
    rfl
  refine ⟨hcrud, ?_⟩
  unfold create_order
  rw [hcrud]

theorem c3_empty_cart_error_witness :
    userCartItems exDb1 3 = [] ∧
    create_order_from_cart exDb1 3 "s" "b" PaymentMethod.credit_card none
      (fun n => toString n) = Except.error "Cart is empty" ∧
    create_order exDb1 3 "s" "b" PaymentMethod.credit_card none
      (fun n => toString n) = (exDb1, ApiResult.httpError 400 "Cart is empty") :=
  ⟨rfl, c3_empty_cart_error exDb1 3 "s" "b" PaymentMethod.credit_card none
    (fun n => toString n) rfl⟩

/-! ## C7: the cart is cleared -/

/-- C7: after a successful checkout the user's cart is empty; exactly the
user's cart rows are deleted (regardless of shop), everyone else's survive. -/
theorem c7_cart_cleared (db : DB) (uid : Nat) (ship bill : String)
    (pm : PaymentMethod) (nts : Option String) (gen : Nat → String)
    (r : DB × List (Order × List OrderItem))
    (hok : create_order_from_cart db uid ship bill pm nts gen = Except.ok r) :
    r.1.cart_items = db.cart_items.filter (fun ci => ci.user_id != uid) ∧
    userCartItems r.1 uid = [] := by
  obtain ⟨-, h1⟩ := create_ok_dest db uid ship bill pm nts gen r hok
  refine ⟨by rw [h1], ?_⟩
  rw [h1]
  show (db.cart_items.filter (fun ci => ci.user_id != uid)).filter
    (fun ci => ci.user_id == uid) = []
  rw [List.filter_filter]
  rw [List.filter_eq_nil_iff]
  intro a _
  by_cases h : a.user_id = uid <;> simp [h]

theorem c7_cart_cleared_witness :
    create_order_from_cart exDb1 1 "ship" "bill" PaymentMethod.credit_card none
      (fun n => toString n) = Except.ok exResult1 ∧
    exResult1.1.cart_items =
      exDb1.cart_items.filter (fun ci => ci.user_id != 1) ∧
    userCartItems exResult1.1 1 = [] :=
  ⟨rfl, c7_cart_cleared exDb1 1 "ship" "bill" PaymentMethod.credit_card none
    (fun n => toString n) exResult1 rfl⟩

/-! ## C10: non-empty cart with no resolvable listing -/

/-- C10: when the cart is non-empty but no item's listing resolves, checkout
does not raise: it returns an empty list of orders, writes no order, order
item or status update row, leaves inventory untouched, and still deletes all
of the user's cart rows. -/
theorem c10_unresolved_cart (db : DB) (uid : Nat) (ship bill : String)
    (pm : PaymentMethod) (nts : Option String) (gen : Nat → String)
    (hne : userCartItems db uid ≠ [])
    (hunres : ∀ ci ∈ userCartItems db uid,
      findShopProduct db ci.shop_product_id = none) :
    ∃ db', create_order_from_cart db uid ship bill pm nts gen =
        Except.ok (db', []) ∧
      db'.orders = db.orders ∧ db'.order_items = db.order_items ∧
      db'.status_updates = db.status_updates ∧
      db'.shop_products = db.shop_products ∧
      db'.cart_items = db.cart_items.filter (fun ci => ci.user_id != uid) := by
  have hgroups : groupCartByShop db (userCartItems db uid) = [] :=
    groupCartByShopAux_unresolved db (userCartItems db uid) [] hunres
  have hemp : (userCartItems db uid).isEmpty = false :=
    List.isEmpty_eq_false.mpr hne
  obtain ⟨db', hok⟩ : ∃ db', create_order_from_cart db uid ship bill pm nts gen =
      Except.ok (db', []) := by
    unfold create_order_from_cart
    simp only [hemp, Bool.false_eq_true, if_false, hgroups]
    exact ⟨_, rfl⟩
  obtain ⟨-, h1⟩ := create_ok_dest db uid ship bill pm nts gen (db', []) hok
  rw [hgroups] at h1
  simp only [processGroups, List.map_nil, List.flatten_nil, List.append_nil] at h1
  exact ⟨db', hok, by rw [h1], by rw [h1], by rw [h1], by rw [h1], by rw [h1]⟩

theorem c10_unresolved_cart_witness :
    (userCartItems exDb10 1 ≠ []) ∧
    (∀ ci ∈ userCartItems exDb10 1,
      findShopProduct exDb10 ci.shop_product_id = none) ∧
    ∃ db', create_order_from_cart exDb10 1 "s" "b" PaymentMethod.credit_card none
        (fun n => toString n) = Except.ok (db', []) ∧
      db'.orders = exDb10.orders ∧ db'.order_items = exDb10.order_items ∧
      db'.status_updates = exDb10.status_updates ∧
      db'.shop_products = exDb10.shop_products ∧
      db'.cart_items = exDb10.cart_items.filter (fun ci => ci.user_id != 1) :=
  ⟨by decide, by decide,
    c10_unresolved_cart exDb10 1 "s" "b" PaymentMethod.credit_card none
      (fun n => toString n) (by decide) (by decide)⟩

/-! ## C6: audit rows for status and payment-status changes -/

/-- C6: update_order_status appends exactly one OrderStatusUpdate row carrying
the new status and sets the order's status column in the same operation;
update_payment_status appends exactly one row carrying the (unchanged) order
status and sets the payment_status column.  In both cases the stored order's
status column afterwards equals the status of the most recently appended
row. -/
theorem c6_status_audit_rows (db : DB) (oid : Nat) (st : OrderStatus)
    (c : Option String) (pst : PaymentStatus) (o : Order)
    (ho : get_order db oid none = some o) :
    (∃ db' o', update_order_status db oid st c = Except.ok (db', o') ∧
      db'.status_updates = db.status_updates ++
        [{ order_id := o.id, status := st, comment := c }] ∧
      get_order db' oid none = some o' ∧ o'.status = st ∧
      (db'.status_updates.getLast?).map StatusUpdateRow.status = some o'.status) ∧
    (∃ db' o', update_payment_status db oid pst = Except.ok (db', o') ∧
      db'.status_updates = db.status_updates ++
        [{ order_id := o.id, status := o.status,
           comment := some ("Payment status updated to " ++ paymentStr pst) }] ∧
      get_order db' oid none = some o' ∧ o'.payment_status = pst ∧
      o'.status = o.status ∧
      (db'.status_updates.getLast?).map StatusUpdateRow.status = some o'.status) := by
  constructor
  · have heq : update_order_status db oid st c = Except.ok
        (setOrder { db with status_updates := db.status_updates ++
          [{ order_id := o.id, status := st, comment := c }] } { o with status := st },
         { o with status := st }) := by
      unfold update_order_status
      rw [ho]
    refine ⟨_, _, heq, rfl, ?_, rfl, ?_⟩
    · exact get_order_after_set _ oid o { o with status := st } ho rfl
    · show ((db.status_updates ++
        [({ order_id := o.id, status := st, comment := c } : StatusUpdateRow)]).getLast?).map
          StatusUpdateRow.status = some st
      rw [List.getLast?_concat]
      rfl
  · have heq : update_payment_status db oid pst = Except.ok
        (setOrder { db with status_updates := db.status_updates ++
          [{ order_id := o.id, status := o.status,
             comment := some ("Payment status updated to " ++ paymentStr pst) }] }
          { o with payment_status := pst },
         { o with payment_status := pst }) := by
      unfold update_payment_status
      rw [ho]
    refine ⟨_, _, heq, rfl, ?_, rfl, rfl, ?_⟩
    · exact get_order_after_set _ oid o { o with payment_status := pst } ho rfl
    · show ((db.status_updates ++
        [({ order_id := o.id, status := o.status, comment := some ("Payment status updated to " ++ paymentStr pst) } : StatusUpdateRow)]).getLast?).map
          StatusUpdateRow.status = some o.status
      rw [List.getLast?_concat]
      rfl

theorem c6_status_audit_rows_witness :
    get_order exDb5 1 none = some exOrder5 ∧
    (∃ db' o', update_order_status exDb5 1 OrderStatus.processing (some "c") =
        Except.ok (db', o') ∧
      db'.status_updates = exDb5.status_updates ++
        [{ order_id := exOrder5.id, status := OrderStatus.processing,
           comment := some "c" }] ∧
      get_order db' 1 none = some o' ∧ o'.status = OrderStatus.processing ∧
      (db'.status_updates.getLast?).map StatusUpdateRow.status = some o'.status) :=
  ⟨rfl, (c6_status_audit_rows exDb5 1 OrderStatus.processing (some "c")
    PaymentStatus.paid exOrder5 rfl).1⟩

/-! ## C8: shipping info implicitly advances the status -/

/-- C8: for an existing order, setting tracking number and shipping company
always stores the two tracking fields; it advances the status to shipped and
appends exactly one OrderStatusUpdate row when (and only when) the current
status is pending or processing, and leaves the status and the audit trail
unchanged otherwise. -/
theorem c8_shipping_info (db : DB) (oid : Nat) (tn sc : String) (o : Order)
    (ho : get_order db oid none = some o) :
    ∃ db' o', update_shipping_info db oid tn sc = Except.ok (db', o') ∧
      o'.tracking_number = some tn ∧ o'.shipping_company = some sc ∧
      get_order db' oid none = some o' ∧
      ((o.status = OrderStatus.pending ∨ o.status = OrderStatus.processing) →
        o'.status = OrderStatus.shipped ∧
        db'.status_updates = db.status_updates ++
          [{ order_id := o.id, status := OrderStatus.shipped,
             comment := some ("Order shipped via " ++ sc ++ ", tracking: " ++ tn) }]) ∧
      (¬ (o.status = OrderStatus.pending ∨ o.status = OrderStatus.processing) →
        o'.status = o.status ∧ db'.status_updates = db.status_updates) := by
  by_cases hst : o.status = OrderStatus.pending ∨ o.status = OrderStatus.processing
  · have heq : update_shipping_info db oid tn sc = Except.ok
        (setOrder { db with status_updates := db.status_updates ++
          [({ order_id := o.id, status := OrderStatus.shipped, comment := some ("Order shipped via " ++ sc ++ ", tracking: " ++ tn) } : StatusUpdateRow)] }
          { o with tracking_number := some tn, shipping_company := some sc, status := OrderStatus.shipped },
         { o with tracking_number := some tn, shipping_company := some sc, status := OrderStatus.shipped }) := by
      unfold update_shipping_info
      rw [ho]
      dsimp only
      rw [if_pos hst]
    refine ⟨_, _, heq, rfl, rfl, ?_, fun _ => ⟨rfl, rfl⟩, fun hn => absurd hst hn⟩
    exact get_order_after_set _ oid o _ ho rfl
  · have heq : update_shipping_info db oid tn sc = Except.ok
        (setOrder db
          { o with tracking_number := some tn, shipping_company := some sc },
         { o with tracking_number := some tn, shipping_company := some sc }) := by
      unfold update_shipping_info
      rw [ho]
      dsimp only
      rw [if_neg hst]
    refine ⟨_, _, heq, rfl, rfl, ?_, fun hp => absurd hp hst, fun _ => ⟨rfl, rfl⟩⟩
    exact get_order_after_set _ oid o _ ho rfl

theorem c8_shipping_info_witness :
    get_order exDb5 1 none = some exOrder5 ∧
    ∃ db' o', update_shipping_info exDb5 1 "TRK" "DHL" = Except.ok (db', o') ∧
      o'.tracking_number = some "TRK" ∧ o'.shipping_company = some "DHL" ∧
      get_order db' 1 none = some o' ∧
      ((exOrder5.status = OrderStatus.pending ∨
        exOrder5.status = OrderStatus.processing) →
        o'.status = OrderStatus.shipped ∧
        db'.status_updates = exDb5.status_updates ++
          [{ order_id := exOrder5.id, status := OrderStatus.shipped,
             comment := some ("Order shipped via " ++ "DHL" ++ ", tracking: " ++ "TRK") }]) ∧
      (¬ (exOrder5.status = OrderStatus.pending ∨
        exOrder5.status = OrderStatus.processing) →
        o'.status = exOrder5.status ∧ db'.status_updates = exDb5.status_updates) :=
  ⟨rfl, c8_shipping_info exDb5 1 "TRK" "DHL" exOrder5 rfl⟩

/-! ## C5: the status transition table -/

/-- C5 counterexample: the claim quantifies over every status transition "at
the API boundary", but the admin endpoint PUT /api/v1/orders/{id} applies any
requested status without consulting the table: a superuser moving a pending
order directly to delivered succeeds and the stored order becomes delivered,
although pending → delivered is not a valid transition. -/
theorem c5_counterexample :
    (OrderStatus.delivered ∉ valid_transitions OrderStatus.pending) ∧
    ((update_order exDb5 exAdmin 1
      { status := some OrderStatus.delivered }).2.isOk = true) ∧
    ((get_order (update_order exDb5 exAdmin 1
      { status := some OrderStatus.delivered }).1 1 none).map Order.status =
      some OrderStatus.delivered) := by
  refine ⟨by decide, by decide, by decide⟩

/-- C5 (amended): at the shop-scoped status endpoint
PUT /shops/{shop_id}/orders/{order_id}/status — given shop access, an
existing order, and the order containing items of that shop — a requested
transition is applied (status updated, one audit row appended) exactly when
it is in the transition table, and otherwise rejected with a 400 naming the
attempted source/target pair, leaving the database unchanged. -/
theorem c5_transition_table (db : DB) (u : User) (shop_id order_id : Nat)
    (st : OrderStatus) (c : Option String) (o : Order)
    (hacc : check_shop_access u shop_id = true)
    (ho : get_order db order_id none = some o)
    (hsi : order_has_shop_items db o shop_id = true) :
    (st ∈ valid_transitions o.status →
      ∃ db' o', update_shop_order_status db u shop_id order_id st c =
          (db', ApiResult.ok o') ∧
        o'.status = st ∧ get_order db' order_id none = some o' ∧
        db'.status_updates = db.status_updates ++
          [({ order_id := o.id, status := st, comment := c } : StatusUpdateRow)]) ∧
    (st ∉ valid_transitions o.status →
      update_shop_order_status db u shop_id order_id st c =
        (db, ApiResult.httpError 400 ("Invalid status transition from " ++
          statusStr o.status ++ " to " ++ statusStr st))) := by
  have hupd : update_order_status db order_id st c = Except.ok
      (setOrder { db with status_updates := db.status_updates ++
        [({ order_id := o.id, status := st, comment := c } : StatusUpdateRow)] }
        { o with status := st },
       { o with status := st }) := by
    unfold update_order_status
    rw [ho]
  constructor
  · intro hmem
    have heq : update_shop_order_status db u shop_id order_id st c =
        (setOrder { db with status_updates := db.status_updates ++
          [({ order_id := o.id, status := st, comment := c } : StatusUpdateRow)] }
          { o with status := st },
         ApiResult.ok { o with status := st }) := by
      unfold update_shop_order_status
      rw [if_neg (fun h => h hacc), ho]
      dsimp only
      rw [if_neg (fun h => h hsi), if_neg (not_not_intro hmem), hupd]
    refine ⟨_, _, heq, rfl, ?_, rfl⟩
    exact get_order_after_set _ order_id o { o with status := st } ho rfl
  · intro hmem
    unfold update_shop_order_status
    rw [if_neg (fun h => h hacc), ho]
    dsimp only
    rw [if_neg (fun h => h hsi), if_pos hmem]

theorem c5_transition_table_witness :
    check_shop_access exLogist 1 = true ∧
    get_order exDb5 1 none = some exOrder5 ∧
    order_has_shop_items exDb5 exOrder5 1 = true ∧
    (∃ db' o', update_shop_order_status exDb5 exLogist 1 1
        OrderStatus.processing (some "start") = (db', ApiResult.ok o') ∧
      o'.status = OrderStatus.processing ∧ get_order db' 1 none = some o' ∧
      db'.status_updates = exDb5.status_updates ++
        [({ order_id := exOrder5.id, status := OrderStatus.processing,
            comment := some "start" } : StatusUpdateRow)]) ∧
    update_shop_order_status exDb5 exLogist 1 1 OrderStatus.delivered none =
      (exDb5, ApiResult.httpError 400 ("Invalid status transition from " ++
        statusStr exOrder5.status ++ " to " ++ statusStr OrderStatus.delivered)) :=
  ⟨rfl, rfl, rfl,
    (c5_transition_table exDb5 exLogist 1 1 OrderStatus.processing (some "start")
      exOrder5 rfl rfl rfl).1 (by decide),
    (c5_transition_table exDb5 exLogist 1 1 OrderStatus.delivered none
      exOrder5 rfl rfl rfl).2 (by decide)⟩

/-! ## C9: fetching one order -/

lemma get_order_owner (db : DB) (oid uid : Nat) (o : Order)
    (h : get_order db oid (some uid) = some o) : o.user_id = uid := by
  unfold get_order at h
  have := List.find?_some h
  simp only [Bool.and_eq_true, beq_iff_eq] at this
  exact this.2

lemma get_order_by_number_owner (db : DB) (n : String) (uid : Nat) (o : Order)
    (h : get_order_by_number db n (some uid) = some o) : o.user_id = uid := by
  unfold get_order_by_number at h
  have := List.find?_some h
  simp only [Bool.and_eq_true, beq_iff_eq] at this
  exact this.2

/-- C9: the endpoint GET /orders/{id_or_number} can never answer 403, because
both lookups are filtered by the caller's id, so an existing order owned by
someone else is reported as 404 "Order not found" — exhibited on a concrete
database where order 1 (owned by user 1) exists and the caller is the
unrelated, non-superuser user 2.  The in-code ownership check that would
produce the 403 of the spec is unreachable. -/
theorem c9_read_order_not_found (db : DB) (ref : OrderRef) (u : User)
    (d : String) :
    read_order_endpoint db ref u ≠ ApiResult.httpError 403 d ∧
    read_order_endpoint exDb5 (OrderRef.byId 1) exCustomer =
      ApiResult.httpError 404 "Order not found" ∧
    (get_order exDb5 1 none).isSome = true := by
  refine ⟨?_, by decide, by decide⟩
  unfold read_order_endpoint
  cases ref with
  | byId oid =>
    cases hres : get_order db oid (some u.id) with
    | none =>
      dsimp only
      rw [hres]
      simp
    | some o =>
      have hown := get_order_owner db oid u.id o hres
      dsimp only
      rw [hres]
      simp [hown]
  | byNumber n =>
    cases hres : get_order_by_number db n (some u.id) with
    | none =>
      dsimp only
      rw [hres]
      simp
    | some o =>
      have hown := get_order_by_number_owner db n u.id o hres
      dsimp only
      rw [hres]
      simp [hown]

/-! ## C4: inventory clamp -/

lemma ite_neg_clamp (a : Int) : (if a < 0 then 0 else a) = max 0 a := by
  rcases lt_or_le a 0 with h | h
  · rw [if_pos h, max_eq_left h.le]
  · rw [if_neg (not_lt.mpr h), max_eq_right h]

lemma flatten_groups_perm (db : DB) (uid : Nat) :
    (((groupCartByShop db (userCartItems db uid)).map Prod.snd).flatten).Perm
      ((userCartItems db uid).filter
        (fun ci => (findShopProduct db ci.shop_product_id).isSome)) := by
  have h := groupCartByShopAux_join db (userCartItems db uid) []
  simpa using h

lemma orderedQty_resolvable (db : DB) (uid : Nat) (p : ShopProduct)
    (hp : p ∈ db.shop_products) :
    itemsQty ((userCartItems db uid).filter
      (fun ci => (findShopProduct db ci.shop_product_id).isSome)) p.id =
    orderedQty db uid p.id := by
  unfold itemsQty orderedQty
  rw [List.filter_filter]
  congr 1
  congr 1
  apply List.filter_congr
  intro ci _
  by_cases heq : ci.shop_product_id = p.id
  · have hres : (findProductIn db.shop_products p.id).isSome = true := by
      apply List.find?_isSome.mpr
      exact ⟨p, hp, by simp⟩
    simp [heq, findShopProduct, hres]
  · simp [heq]

lemma groups_quantities (db : DB) (uid : Nat)
    (hq : ∀ ci ∈ db.cart_items, 0 ≤ ci.quantity) :
    ∀ grp ∈ groupCartByShop db (userCartItems db uid),
      ∀ ci ∈ grp.2, 0 ≤ ci.quantity := by
  intro grp hgrp ci hci
  obtain ⟨sid, items⟩ := grp
  exact groupCartByShopAux_mem db (userCartItems db uid)
    (fun ci _ => 0 ≤ ci.quantity) [] (by simp)
    (fun x hx sp _ => hq x (List.mem_of_mem_filter hx)) sid items hgrp ci hci

/-- C4: after a checkout, every shop listing's stock is the clamped value
max(0, previous stock − total quantity of the user's cart items referencing
it) — untouched listings keep their stock since the ordered quantity is 0;
and update_stock adds a signed delta to an existing listing's stock clamped
at zero, returning the updated listing, or None when no listing has the given
id.  The checkout part assumes the data-model invariants (cart quantities
and stocks are non-negative). -/
theorem c4_stock_clamp :
    (∀ (db : DB) (uid : Nat) (ship bill : String) (pm : PaymentMethod)
        (nts : Option String) (gen : Nat → String)
        (r : DB × List (Order × List OrderItem)),
      (∀ ci ∈ db.cart_items, 0 ≤ ci.quantity) →
      (∀ p ∈ db.shop_products, 0 ≤ p.stock_quantity) →
      create_order_from_cart db uid ship bill pm nts gen = Except.ok r →
      r.1.shop_products = db.shop_products.map (fun p =>
        { p with stock_quantity := max 0 (p.stock_quantity - orderedQty db uid p.id) })) ∧
    (∀ (db : DB) (pid : Nat) (qc : Int) (p : ShopProduct),
      findShopProduct db pid = some p →
      ∃ db' p', update_stock db pid qc = some (db', p') ∧
        p'.id = p.id ∧ p'.stock_quantity = max 0 (p.stock_quantity + qc) ∧
        db'.shop_products = db.shop_products.map (fun q =>
          if q.id = pid then { q with stock_quantity := max 0 (q.stock_quantity + qc) } else q)) ∧
    (∀ (db : DB) (pid : Nat) (qc : Int),
      findShopProduct db pid = none → update_stock db pid qc = none) := by
  refine ⟨?_, ?_, ?_⟩
  · intro db uid ship bill pm nts gen r hq hs hok
    obtain ⟨-, h1⟩ := create_ok_dest db uid ship bill pm nts gen r hok
    rw [h1]
    show (processGroups db uid ship bill pm nts gen db.shop_products db.next_id
      (groupCartByShop db (userCartItems db uid))).products = _
    rw [processGroups_products db uid ship bill pm nts gen
      (groupCartByShop db (userCartItems db uid)) db.shop_products db.next_id
      (groups_quantities db uid hq) hs]
    apply List.map_congr_left
    intro p hp
    have h2 : itemsQty (((groupCartByShop db (userCartItems db uid)).map
        Prod.snd).flatten) p.id = orderedQty db uid p.id := by
      rw [itemsQty_perm (flatten_groups_perm db uid) p.id]
      exact orderedQty_resolvable db uid p hp
    rw [h2]
  · intro db pid qc p hfind
    have heq : update_stock db pid qc = some
        ({ db with shop_products := db.shop_products.map (fun q =>
            if q.id = pid then { q with stock_quantity := if q.stock_quantity + qc < 0 then 0 else q.stock_quantity + qc } else q) },
         { p with stock_quantity := if p.stock_quantity + qc < 0 then 0 else p.stock_quantity + qc }) := by
      unfold update_stock
      rw [hfind]
    refine ⟨_, _, heq, rfl, ?_, ?_⟩
    · show (if p.stock_quantity + qc < 0 then 0 else p.stock_quantity + qc) =
        max 0 (p.stock_quantity + qc)
      exact ite_neg_clamp _
    · show db.shop_products.map _ = db.shop_products.map _
      apply List.map_congr_left
      intro q _
      by_cases h : q.id = pid
      · rw [if_pos h, if_pos h, ite_neg_clamp]
      · rw [if_neg h, if_neg h]
  · intro db pid qc h
    unfold update_stock
    rw [h]

theorem c4_stock_clamp_witness :
    (∀ ci ∈ exDb1.cart_items, 0 ≤ ci.quantity) ∧
    (∀ p ∈ exDb1.shop_products, 0 ≤ p.stock_quantity) ∧
    create_order_from_cart exDb1 1 "ship" "bill" PaymentMethod.credit_card none
      (fun n => toString n) = Except.ok exResult1 ∧
    exResult1.1.shop_products = exDb1.shop_products.map (fun p =>
      { p with stock_quantity := max 0 (p.stock_quantity - orderedQty exDb1 1 p.id) }) ∧
    update_stock exDb1 99 5 = none ∧
    (∃ db' p', update_stock exDb1 11 (-3) = some (db', p') ∧
      p'.id = (⟨11, 1, "Filter", 10, none, 5⟩ : ShopProduct).id ∧
      p'.stock_quantity =
        max 0 ((⟨11, 1, "Filter", 10, none, 5⟩ : ShopProduct).stock_quantity + (-3)) ∧
      db'.shop_products = exDb1.shop_products.map (fun q =>
        if q.id = 11 then { q with stock_quantity := max 0 (q.stock_quantity + (-3)) } else q)) :=
  ⟨by decide, by decide, rfl,
   c4_stock_clamp.1 exDb1 1 "ship" "bill" PaymentMethod.credit_card none
     (fun n => toString n) exResult1 (by decide) (by decide) rfl,
   c4_stock_clamp.2.2 exDb1 99 5 rfl,
   c4_stock_clamp.2.1 exDb1 11 (-3) ⟨11, 1, "Filter", 10, none, 5⟩ rfl⟩

/-! ## C2: order totals -/

lemma checkout_bundle_totals (db : DB) (uid : Nat) (ship bill : String)
    (pm : PaymentMethod) (nts : Option String) (gen : Nat → String)
    (r : DB × List (Order × List OrderItem))
    (hok : create_order_from_cart db uid ship bill pm nts gen = Except.ok r) :
    ∀ b ∈ r.2,
      b.1.total_amount = (b.2.map (fun oi => oi.price * (oi.quantity : Rat))).sum ∧
      ∀ oi ∈ b.2, ∃ sp, findShopProduct db oi.shop_product_id = some sp ∧
        oi.price = effectivePrice sp := by
  obtain ⟨h2, -⟩ := create_ok_dest db uid ship bill pm nts gen r hok
  have hfa := processGroups_bundles db uid ship bill pm nts gen
    (groupCartByShop db (userCartItems db uid)) id db.next_id stockOnly_id
  rw [List.map_id] at hfa
  intro b hb
  rw [h2] at hb
  rcases List.mem_iff_get.mp hb with ⟨⟨i, hi⟩, hbi⟩
  obtain ⟨hlen, hget⟩ := List.forall₂_iff_get.mp hfa
  have hgi : i < (groupCartByShop db (userCartItems db uid)).length := by
    rw [hlen]; exact hi
  have hR := hget i hgi hi
  rw [hbi] at hR
  obtain ⟨hitems, htotal, -, -, -⟩ := hR
  refine ⟨htotal, ?_⟩
  intro oi hoi
  rw [hitems] at hoi
  rcases List.mem_filterMap.mp hoi with ⟨ci, hci, hmap⟩
  rcases Option.map_eq_some'.mp hmap with ⟨sp, hfind, hoi'⟩
  have hspid : sp.id = ci.shop_product_id := by
    simpa using List.find?_some hfind
  refine ⟨sp, ?_, ?_⟩
  · rw [← hoi']
    show findProductIn db.shop_products sp.id = some sp
    rw [hspid]
    exact hfind
  · rw [← hoi']
    rfl

/-- C2 counterexample: a listing with price 10 and sale price 0.  Python
truthiness (`sale_price if sale_price else price`) treats a zero sale price
like a missing one, so the created order snapshots price 10 and gets total
10, while the claim's effective unit price — "sale price if present and
non-null" — is 0, giving spec-sum 0 ≠ 10. -/
theorem c2_counterexample :
    ∃ r, create_order_from_cart exDb2 1 "ship" "bill"
        PaymentMethod.credit_card none (fun _ => "X") = Except.ok r ∧
      ∃ b ∈ r.2, b.1.total_amount ≠ specBundleSum exDb2 b := by
  refine ⟨_, rfl, ?_⟩
  have hc2 := checkout_bundle_totals exDb2 1 "ship" "bill"
    PaymentMethod.credit_card none (fun _ => "X") _ rfl
  refine ⟨_, List.mem_singleton_self _, ?_⟩
  have h := (hc2 _ (List.mem_singleton_self _)).1
  rw [h]
  norm_num [specBundleSum, effectivePrice, specEffectivePrice, findShopProduct,
    findProductIn, List.find?, processGroup, processGroupItems, updateStockList,
    shopNameOf, findShop, groupTotal, groupTotalAux, mkOrderItemFor]

/-- C2 (amended): for every order created by create_order_from_cart,
total_amount equals the sum over the order's items of effective unit price
times quantity, where the effective unit price of a listing is its sale
price if that is present, non-null AND non-zero, and its price otherwise
(each order item's snapshotted price is exactly that effective price of its
listing in the pre-checkout database). -/
theorem c2_total_amount (db : DB) (uid : Nat) (ship bill : String)
    (pm : PaymentMethod) (nts : Option String) (gen : Nat → String)
    (r : DB × List (Order × List OrderItem))
    (hok : create_order_from_cart db uid ship bill pm nts gen = Except.ok r) :
    ∀ b ∈ r.2,
      b.1.total_amount = (b.2.map (fun oi => oi.price * (oi.quantity : Rat))).sum ∧
      ∀ oi ∈ b.2, ∃ sp, findShopProduct db oi.shop_product_id = some sp ∧
        oi.price = effectivePrice sp :=
  checkout_bundle_totals db uid ship bill pm nts gen r hok

theorem c2_total_amount_witness :
    create_order_from_cart exDb1 1 "ship" "bill" PaymentMethod.credit_card none
      (fun n => toString n) = Except.ok exResult1 ∧
    ∀ b ∈ exResult1.2,
      b.1.total_amount = (b.2.map (fun oi => oi.price * (oi.quantity : Rat))).sum ∧
      ∀ oi ∈ b.2, ∃ sp, findShopProduct exDb1 oi.shop_product_id = some sp ∧
        oi.price = effectivePrice sp :=
  ⟨rfl, c2_total_amount exDb1 1 "ship" "bill" PaymentMethod.credit_card none
    (fun n => toString n) exResult1 rfl⟩

/-! ## C1: one order per shop -/

/-- C1: a successful checkout returns exactly one order per distinct shop
among the cart items whose listing resolves (the order count equals the
number of distinct shop ids in the cart), each returned order's items all
come from the user's cart items of a single shop, and the newly persisted
OrderItem rows carrying a returned order's id are exactly that order's
items. -/
theorem c1_one_order_per_shop (db : DB) (uid : Nat) (ship bill : String)
    (pm : PaymentMethod) (nts : Option String) (gen : Nat → String)
    (r : DB × List (Order × List OrderItem))
    (hok : create_order_from_cart db uid ship bill pm nts gen = Except.ok r) :
    r.2.length = (cartShopIds db uid).dedup.length ∧
    (∀ b ∈ r.2, ∃ sid, ∀ oi ∈ b.2, oi.order_id = b.1.id ∧
      ∃ ci ∈ userCartItems db uid, ∃ sp,
        findShopProduct db ci.shop_product_id = some sp ∧ sp.shop_id = sid ∧
        oi = mkOrderItemFor db b.1.id ci sp) ∧
    (∀ b ∈ r.2, ∀ oi ∈ r.1.order_items, oi ∉ db.order_items →
      oi.order_id = b.1.id → oi ∈ b.2) := by
  obtain ⟨h2, h1⟩ := create_ok_dest db uid ship bill pm nts gen r hok
  have hnodup := groupCartByShopAux_nodup_fst db (userCartItems db uid) []
    (by simp)
  have htf := groupCartByShopAux_toFinset_fst db (userCartItems db uid) []
  have hfa := processGroups_bundles db uid ship bill pm nts gen
    (groupCartByShop db (userCartItems db uid)) id db.next_id stockOnly_id
  rw [List.map_id] at hfa
  obtain ⟨hlen, hget⟩ := List.forall₂_iff_get.mp hfa
  have hnodup' : ((groupCartByShop db (userCartItems db uid)).map Prod.fst).Nodup :=
    hnodup
  have htf' : ((groupCartByShop db (userCartItems db uid)).map Prod.fst).toFinset =
      ((userCartItems db uid).filterMap (shopOf db)).toFinset := by
    have h := htf
    simpa using h
  refine ⟨?_, ?_, ?_⟩
  · rw [h2, processGroups_length]
    rw [show (groupCartByShop db (userCartItems db uid)).length =
      ((groupCartByShop db (userCartItems db uid)).map Prod.fst).length
      from (List.length_map _ _).symm]
    rw [← List.toFinset_card_of_nodup hnodup', htf', List.card_toFinset]
    rfl
  · intro b hb
    rw [h2] at hb
    rcases List.mem_iff_get.mp hb with ⟨⟨i, hi⟩, hbi⟩
    have hgi : i < (groupCartByShop db (userCartItems db uid)).length := by
      rw [hlen]; exact hi
    have hR := hget i hgi hi
    rw [hbi] at hR
    obtain ⟨hitems, -, -, -, -⟩ := hR
    refine ⟨((groupCartByShop db (userCartItems db uid)).get ⟨i, hgi⟩).1, ?_⟩
    intro oi hoi
    rw [hitems] at hoi
    rcases List.mem_filterMap.mp hoi with ⟨ci, hci, hmap⟩
    rcases Option.map_eq_some'.mp hmap with ⟨sp, hfind, hoi'⟩
    have hgrp_mem : ((groupCartByShop db (userCartItems db uid)).get ⟨i, hgi⟩) ∈
        groupCartByShop db (userCartItems db uid) := List.get_mem _ _ _
    have hP := groupCartByShopAux_mem db (userCartItems db uid)
      (fun ci s => ci ∈ userCartItems db uid ∧ shopOf db ci = some s) []
      (by simp)
      (fun x hx sp' hsp' => ⟨hx, by rw [shopOf, hsp', Option.map_some']⟩)
      ((groupCartByShop db (userCartItems db uid)).get ⟨i, hgi⟩).1
      ((groupCartByShop db (userCartItems db uid)).get ⟨i, hgi⟩).2
      hgrp_mem ci hci
    obtain ⟨hci_cart, hci_shop⟩ := hP
    have hsid : sp.shop_id =
        ((groupCartByShop db (userCartItems db uid)).get ⟨i, hgi⟩).1 := by
      rw [shopOf] at hci_shop
      rw [show findShopProduct db ci.shop_product_id = some sp from hfind] at hci_shop
      simpa using hci_shop
    constructor
    · rw [← hoi']
      rfl
    · exact ⟨ci, hci_cart, sp, hfind, hsid, hoi'.symm⟩
  · intro b hb oi hoi hnew hid
    rw [h1] at hoi
    have hoi2 : oi ∈ (((processGroups db uid ship bill pm nts gen
        db.shop_products db.next_id
        (groupCartByShop db (userCartItems db uid))).bundles.map
          Prod.snd).flatten) := by
      rcases List.mem_append.mp hoi with h | h
      · exact absurd h hnew
      · exact h
    rcases List.mem_flatten.mp hoi2 with ⟨l, hl, hol⟩
    rcases List.mem_map.mp hl with ⟨b', hb', rfl⟩
    have hbid' : oi.order_id = b'.1.id :=
      processGroups_item_ids db uid ship bill pm nts gen
        (groupCartByShop db (userCartItems db uid)) db.shop_products db.next_id
        b' hb' oi hol
    rw [h2] at hb
    rcases List.mem_iff_get.mp hb with ⟨⟨i, hi⟩, hbi⟩
    rcases List.mem_iff_get.mp hb' with ⟨⟨j, hj⟩, hbj⟩
    have hidi := processGroups_bundle_id db uid ship bill pm nts gen
      (groupCartByShop db (userCartItems db uid)) db.shop_products db.next_id
      i hi
    have hidj := processGroups_bundle_id db uid ship bill pm nts gen
      (groupCartByShop db (userCartItems db uid)) db.shop_products db.next_id
      j hj
    rw [hbi] at hidi
    rw [hbj] at hidj
    have hij : i = j := by
      have : db.next_id + i = db.next_id + j := by
        rw [← hidi, ← hidj, ← hid, hbid']
      omega
    subst hij
    have hbb' : b = b' := by
      rw [← hbi, ← hbj]
    rw [hbb']
    exact hol

theorem c1_one_order_per_shop_witness :
    create_order_from_cart exDb1 1 "ship" "bill" PaymentMethod.credit_card none
      (fun n => toString n) = Except.ok exResult1 ∧
    exResult1.2.length = (cartShopIds exDb1 1).dedup.length :=
  ⟨rfl, (c1_one_order_per_shop exDb1 1 "ship" "bill" PaymentMethod.credit_card
    none (fun n => toString n) exResult1 rfl).1⟩

end MundoAuto
